import Mathlib

/-!
Shallow embedding of the Northapp email-based payment confirmation engine.

Sources embedded:
* `src/utils/paymentValidator.js` — `normalizePhrase`, `extractTopupLine`,
  `extractPassphraseFromSafeZones`, `validatePayment`
* `src/utils/topupConfirmer.js` — `getActiveTopups`, `findMatchingTopupByPhrase`,
  `confirmTopupFromEmail`
* `src/utils/paymentLogger.js` — `logPayment`
* `src/unnamed/part_001` (services/gmailPoller.js) — `markerExists`, `markProcessed`,
  `processEmails`, `pollGmail`/`pollLoop` backoff state
* `src/db.js` — table shapes (`topups`, `users`, `payment_logs`, `mail_markers`,
  `app_settings`), including the unique index on `payment_logs.email_uid`.

Modelling conventions:
* SQLite timestamps (ISO strings compared with `datetime(...)`) are modelled as `Int`
  instants in milliseconds; `datetime(a) > datetime(b)` becomes `b < a`.
* JS numbers are modelled as `ℚ`; `NaN` outcomes are modelled as `Option` misses.
  (`Infinity` inputs to `parseFloat` are outside the model.)
* Database rows are lists of structures; an SQL `UPDATE ... WHERE p` maps every row
  satisfying `p` and its `changes` count is the number of such rows.
* `better-sqlite3`'s `db.transaction` rolls the whole transaction back when the
  wrapped function throws; this is modelled with `Except`: `.error` keeps the
  pre-transaction state.
* The IMAP client, the external Python parser and the wall clock are inputs
  (environment functions / explicit `now` parameters).
-/

namespace Northapp

/-- Whitespace-separated words of a character list (accumulator holds the
current word reversed). -/
def wsWordsAux : List Char → List Char → List (List Char)
  | [], acc => if acc = [] then [] else [acc.reverse]
  | c :: rest, acc =>
    if c.isWhitespace then
      if acc = [] then wsWordsAux rest [] else acc.reverse :: wsWordsAux rest []
    else wsWordsAux rest (c :: acc)

/-- `normalizePhrase` from paymentValidator.js: lower-case, collapse each whitespace
run to a single space, trim — realized as "lower-case, split into whitespace-free
words, join with single spaces".  Non-string/empty input yields `""` (callers pass
`Option.getD ""`-style defaults where JS would pass `undefined`). -/
def normalizePhrase (text : String) : String :=
  ⟨List.intercalate [' '] (wsWordsAux (text.data.map Char.toLower) [])⟩

/-- JS `String.prototype.trim` (character-list implementation). -/
def jsTrim (s : String) : String :=
  ⟨((s.data.dropWhile (·.isWhitespace)).reverse.dropWhile (·.isWhitespace)).reverse⟩

/-- Fold a digit list into a natural number (helper for the parseFloat model). -/
def digitsToNat (ds : List Char) : Nat :=
  ds.foldl (fun a c => a * 10 + (c.toNat - '0'.toNat)) 0

/-- Model of JS `parseFloat`: skip leading whitespace, optional sign, decimal
digits with optional fraction and exponent; trailing garbage is ignored; `none`
models `NaN` (no digits at all).  The value
`sign * (intDigits.fracDigits) * 10^exponent` is assembled as a single
`Rat.divInt` over integer arithmetic so that concrete runs reduce in the
kernel. -/
def jsParseFloat (s : String) : Option ℚ :=
  let cs := s.data.dropWhile (·.isWhitespace)
  let signAndRest : Int × List Char :=
    match cs with
    | '+' :: r => (1, r)
    | '-' :: r => (-1, r)
    | _ => (1, cs)
  let sign := signAndRest.1
  let cs1 := signAndRest.2
  let intPart := cs1.span (·.isDigit)
  let intDigits := intPart.1
  let cs2 := intPart.2
  let fracAndRest : List Char × List Char :=
    match cs2 with
    | '.' :: r => r.span (·.isDigit)
    | _ => ([], cs2)
  let fracDigits := fracAndRest.1
  let cs3 := fracAndRest.2
  if intDigits.isEmpty && fracDigits.isEmpty then none
  else
    let expVal : Int :=
      match cs3 with
      | 'e' :: r | 'E' :: r =>
        let esignAndRest : Int × List Char :=
          match r with
          | '+' :: r2 => (1, r2)
          | '-' :: r2 => (-1, r2)
          | _ => (1, r)
        let eds := (esignAndRest.2.span (·.isDigit)).1
        if eds.isEmpty then 0 else esignAndRest.1 * (digitsToNat eds : Int)
      | _ => 0
    let mantNum : Int :=
      sign * ((digitsToNat intDigits * 10 ^ fracDigits.length + digitsToNat fracDigits : Nat) : Int)
    if 0 ≤ expVal then
      some (Rat.divInt (mantNum * ((10 ^ expVal.toNat : Nat) : Int))
        ((10 ^ fracDigits.length : Nat) : Int))
    else
      some (Rat.divInt mantNum ((10 ^ (fracDigits.length + (-expVal).toNat) : Nat) : Int))

/-- JS template rendering of a possibly-`undefined` string argument. -/
def jsShowOptStr : Option String → String
  | none => "undefined"
  | some s => s

/-- JS `x || y` on strings (empty string is falsy). -/
def jsOr (a b : String) : String :=
  if a ≠ "" then a else b

/-- `Math.floor(parseFloat(amountString || "0"))` from confirmTopupFromEmail
(line 137); `none` models the `NaN` case; `Rat.floor` is `Math.floor`. -/
def jsCoins (amountString : Option String) : Option Int :=
  let s :=
    match amountString with
    | none => "0"
    | some a => if a = "" then "0" else a
  (jsParseFloat s).map Rat.floor

/-- Substring test (JS `String.prototype.includes`). -/
def listContainsSub : List Char → List Char → Bool
  | _, [] => true
  | [], _ :: _ => false
  | c :: rest, n :: ns => (n :: ns).isPrefixOf (c :: rest) || listContainsSub rest (n :: ns)

/-- JS `hay.includes(needle)`. -/
def strIncludes (hay needle : String) : Bool :=
  listContainsSub hay.data needle.data

/-! ## Data model (db.js schemas) -/

/-- A row of the `topups` table (id INTEGER PRIMARY KEY, userId, code TEXT UNIQUE,
status TEXT DEFAULT 'PENDING', expiresAt TEXT, amount_coins REAL NULL,
armed_uidnext INTEGER NULL, createdAt TEXT). -/
structure Topup where
  id : Nat
  userId : Nat
  code : String
  status : String
  expiresAt : Int
  createdAt : Int
  amount_coins : Option Int
  armed_uidnext : Option Nat
deriving Repr, DecidableEq

/-- A row of the `users` table restricted to the columns the engine touches
(`balance_coins INTEGER NOT NULL DEFAULT 0`). -/
structure User where
  id : Nat
  balance_coins : Int
deriving Repr, DecidableEq

/-- A row of the `payment_logs` table (the columns `logPayment` writes). -/
structure PaymentLog where
  email_uid : Option String
  parser_pay_type : Option String
  parser_amount : Option String
  parser_request_status : Option String
  parser_is_expired : Option Bool
  extracted_code : Option String
  matched_topup_id : Option Nat
  decision : String
  reason : Option String
  raw_subject : Option String
  short_body_preview : Option String
deriving Repr, DecidableEq

/-- A default/empty log row; call sites override the fields they set. -/
def PaymentLog.empty : PaymentLog :=
  { email_uid := none, parser_pay_type := none, parser_amount := none,
    parser_request_status := none, parser_is_expired := none, extracted_code := none,
    matched_topup_id := none, decision := "", reason := none, raw_subject := none,
    short_body_preview := none }

/-- The persistent state the engine touches: `topups`, `users`, `payment_logs`,
`mail_markers`, and the two `app_settings` keys (`gmail_start_uid`,
`gmail_last_checked_at`). -/
structure Db where
  topups : List Topup
  users : List User
  payment_logs : List PaymentLog
  mail_markers : List String
  gmail_start_uid : Option Nat
  gmail_last_checked_at : Option Int
deriving Repr, DecidableEq

/-- `logPayment` from paymentLogger.js: INSERT into `payment_logs`; a UNIQUE
violation on the `email_uid` index is swallowed (idempotent write); a missing
`decision` aborts without writing; `short_body_preview` is truncated to 200
characters. -/
def logPayment (db : Db) (e : PaymentLog) : Db :=
  if e.decision = "" then db
  else
    let e' := { e with short_body_preview := e.short_body_preview.map (·.take 200) }
    match e.email_uid with
    | some u =>
      if db.payment_logs.any (fun l => l.email_uid = some u) then db
      else { db with payment_logs := db.payment_logs ++ [e'] }
    | none => { db with payment_logs := db.payment_logs ++ [e'] }

/-! ## topupConfirmer.js -/

/-- `getActiveTopups`: `SELECT ... FROM topups WHERE status = 'PENDING' AND
datetime(expiresAt) > datetime(now) ORDER BY createdAt DESC`.  The `db` handle
argument of the JS function is passed as the `topups` table it reads. -/
def getActiveTopups (topups : List Topup) (now : Int) : List Topup :=
  (topups.filter (fun t => t.status = "PENDING" ∧ now < t.expiresAt)).insertionSort
    (fun a b => b.createdAt ≤ a.createdAt)

/-- Result record of `findMatchingTopupByPhrase`. -/
structure MatchResult where
  topup : Option Topup
  reason : String
  matchedPhrase : Option String
deriving Repr, DecidableEq

/-- Renders `matches.map(m => `"${m.phrase}"`).join(", ")`. -/
def quoteJoin (ps : List String) : String :=
  String.intercalate ", " (ps.map (fun p => "\"" ++ p ++ "\""))

/-- The multiple-match rejection reason from findMatchingTopupByPhrase. -/
def multipleMatchReason (phrases : List String) : String :=
  "Multiple active topup phrases match candidate: " ++ quoteJoin phrases ++
    " (" ++ toString phrases.length ++ " matches)"

/-- `findMatchingTopupByPhrase` from topupConfirmer.js: strict equality of
normalized phrases over all active topups; zero, one and many matches are
distinguished; `codeCandidate` may be absent (JS null/undefined/""). -/
def findMatchingTopupByPhrase (topups : List Topup) (now : Int)
    (codeCandidate : Option String) : MatchResult :=
  match codeCandidate with
  | none => ⟨none, "No code candidate provided", none⟩
  | some cand =>
    if cand = "" then ⟨none, "No code candidate provided", none⟩
    else
      let normalizedCandidate := normalizePhrase cand
      if normalizedCandidate = "" then
        ⟨none, "Code candidate is empty after normalization", none⟩
      else
        let activeTopups := getActiveTopups topups now
        if activeTopups.isEmpty then
          ⟨none, "No active PENDING topups found in database", none⟩
        else
          let matchList := activeTopups.filter
            (fun t => normalizedCandidate = normalizePhrase t.code)
          match matchList with
          | [] =>
            ⟨none, "No active topup phrase matches candidate \"" ++ normalizedCandidate ++
              "\" (checked " ++ toString activeTopups.length ++ " active topup(s))", none⟩
          | [m] =>
            ⟨some m, "Exact phrase match found: \"" ++ m.code ++ "\"", some m.code⟩
          | _ :: _ :: _ =>
            ⟨none, multipleMatchReason (matchList.map Topup.code), none⟩

/-- JS template rendering of a possibly-`null` number. -/
def jsShowOptInt : Option Int → String
  | none => "null"
  | some n => toString n

/-- Arguments of `confirmTopupFromEmail` (the destructured params object);
`emailDate` is `none` when the date is missing/"Unknown"/unparseable. -/
structure ConfirmArgs where
  codeCandidate : Option String
  code_source : String
  amountString : Option String
  email_uid : String
  subject : String
  bodyPreview : String
  emailDate : Option Int
deriving Repr, DecidableEq

/-- Return value of `confirmTopupFromEmail`. -/
structure ConfirmResult where
  success : Bool
  reason : String
  topupId : Option Nat
  userId : Option Nat
  coins : Option Int
  extracted_code : Option String
deriving Repr, DecidableEq

/-- A `{ success: false, reason }` return. -/
def ConfirmResult.fail (reason : String) : ConfirmResult :=
  { success := false, reason := reason, topupId := none, userId := none,
    coins := none, extracted_code := none }

/-- The WHERE clause of the transaction's re-read and topup UPDATE:
`id = ? AND status = 'PENDING' AND datetime(expiresAt) > datetime('now')`. -/
def txWhere (tid : Nat) (txNow : Int) (t : Topup) : Prop :=
  t.id = tid ∧ t.status = "PENDING" ∧ txNow < t.expiresAt

instance (tid : Nat) (txNow : Int) (t : Topup) : Decidable (txWhere tid txNow t) := by
  unfold txWhere; infer_instance

/-- `changes` of the transaction's topup UPDATE: how many rows its WHERE hits. -/
def countUpdatableTopups (topups : List Topup) (tid : Nat) (txNow : Int) : Nat :=
  (topups.filter (fun t => txWhere tid txNow t)).length

/-- Effect of `UPDATE topups SET status = 'CONFIRMED', amount_coins = ? WHERE ...`. -/
def confirmUpdateTopups (topups : List Topup) (tid : Nat) (coins : Int) (txNow : Int) :
    List Topup :=
  topups.map (fun t =>
    if txWhere tid txNow t then { t with status := "CONFIRMED", amount_coins := some coins }
    else t)

/-- `changes` of the balance UPDATE: rows with the owner's id. -/
def countUsersById (users : List User) (ownerId : Nat) : Nat :=
  (users.filter (fun u => u.id = ownerId)).length

/-- Effect of `UPDATE users SET balance_coins = balance_coins + ? WHERE id = ?`. -/
def creditUsers (users : List User) (ownerId : Nat) (coins : Int) : List User :=
  users.map (fun u =>
    if u.id = ownerId then { u with balance_coins := u.balance_coins + coins } else u)

/-- The atomic credit transaction of confirmTopupFromEmail (lines 255–305):
race-guard re-read filtered on `status = 'PENDING' AND datetime(expiresAt) >
datetime('now')`, conditional topup UPDATE (status, amount_coins) with a
changes-count check, then the balance UPDATE with its changes-count check.  Any
`throw` is an `.error`; better-sqlite3 then rolls the whole transaction back, so
the caller keeps the pre-transaction tables. -/
def confirmTransaction (topups : List Topup) (users : List User) (tid ownerId : Nat)
    (coins : Int) (txNow : Int) : Except String (List Topup × List User) :=
  if countUpdatableTopups topups tid txNow = 0 then
    .error "TopUp not found, expired, or already processed"
  else
    let changes := countUpdatableTopups topups tid txNow
    let topups1 := confirmUpdateTopups topups tid coins txNow
    if changes ≠ 1 then
      match topups1.find? (fun t => t.id = tid) with
      | some checkTopup =>
        if checkTopup.status = "CONFIRMED" then
          .error ("TopUp already confirmed (amount: " ++ jsShowOptInt checkTopup.amount_coins ++
            " coins) - preventing double-credit")
        else .error "TopUp update failed (may have been confirmed or expired)"
      | none => .error "TopUp update failed (may have been confirmed or expired)"
    else
      let changes2 := countUsersById users ownerId
      let users1 := creditUsers users ownerId coins
      if changes2 ≠ 1 then
        .error ("Failed to update user balance for user " ++ toString ownerId)
      else .ok (topups1, users1)

/-- `confirmTopupFromEmail` after the idempotency gate.  Past the gate the JS
code reads the database only through the `topups` and `users` tables and writes
logs only through `logPayment`, so the core is factored as a function of those
two tables returning the updated tables plus the log entries written.  `now` is
the JS wall clock of this call, `txNow` the SQLite `datetime('now')` instant
used inside the transaction. -/
def confirmCore (a : ConfirmArgs) (topups : List Topup) (users : List User)
    (now txNow : Int) : ConfirmResult × List Topup × List User × List PaymentLog :=
  let amountReject :=
    let reason := "Invalid email amount: " ++ jsShowOptStr a.amountString ++
      " (must be > 0). Parser returned empty/invalid amount - likely no strong transaction match found."
    (ConfirmResult.fail reason, topups, users,
      [{ PaymentLog.empty with
          email_uid := some a.email_uid, parser_amount := a.amountString,
          extracted_code := a.codeCandidate, decision := "REJECTED",
          reason := some (reason ++ " (source: " ++ a.code_source ++ ")"),
          raw_subject := some a.subject, short_body_preview := some a.bodyPreview }])
  match jsCoins a.amountString with
  | none => amountReject
  | some coins =>
    if coins ≤ 0 then amountReject
    else
      let matchResult := findMatchingTopupByPhrase topups now a.codeCandidate
      match matchResult.topup with
      | none =>
        let decision := if strIncludes matchResult.reason "Multiple" then "REJECTED" else "IGNORED"
        (ConfirmResult.fail matchResult.reason, topups, users,
          [{ PaymentLog.empty with
              email_uid := some a.email_uid, parser_amount := a.amountString,
              extracted_code := matchResult.matchedPhrase, decision := decision,
              reason := some (matchResult.reason ++ " (source: " ++ a.code_source ++ ")"),
              raw_subject := some a.subject, short_body_preview := some a.bodyPreview }])
      | some topup =>
        let matchedPhrase := matchResult.matchedPhrase
        let rejectWith := fun (reason : String) =>
          (ConfirmResult.fail reason, topups, users,
            [{ PaymentLog.empty with
                email_uid := some a.email_uid, parser_amount := a.amountString,
                extracted_code := matchedPhrase, matched_topup_id := some topup.id,
                decision := "REJECTED",
                reason := some (reason ++ " (source: " ++ a.code_source ++ ")"),
                raw_subject := some a.subject, short_body_preview := some a.bodyPreview }])
        if topup.status ≠ "PENDING" then
          rejectWith ("TopUp status is " ++ topup.status ++ ", expected PENDING")
        else if now > topup.expiresAt then
          rejectWith ("Payment arrived after TopUp expiry (expiresAt: " ++
            toString topup.expiresAt ++ ")")
        else if a.emailDate.any (fun d => topup.expiresAt + 5 * 60 * 1000 < d) then
          rejectWith ("Email date (" ++ jsShowOptInt a.emailDate ++
            ") is too far in the future (after expiresAt + 5min: " ++
            toString (topup.expiresAt + 5 * 60 * 1000) ++ ")")
        else
          match confirmTransaction topups users topup.id topup.userId coins txNow with
          | .ok (topups1, users1) =>
            ({ success := true,
               reason := "Payment confirmed: " ++ toString coins ++ " coins credited",
               topupId := some topup.id, userId := some topup.userId,
               coins := some coins, extracted_code := matchedPhrase },
             topups1, users1,
             [{ PaymentLog.empty with
                 email_uid := some a.email_uid, parser_amount := a.amountString,
                 extracted_code := matchedPhrase, matched_topup_id := some topup.id,
                 decision := "ACCEPTED",
                 reason := some ("Payment confirmed: " ++ toString coins ++
                   " coins credited to user " ++ toString topup.userId ++
                   " (source: " ++ a.code_source ++ ", coins from email)"),
                 raw_subject := some a.subject, short_body_preview := some a.bodyPreview }])
          | .error msg =>
            let reason := "Database transaction failed: " ++ msg
            (ConfirmResult.fail reason, topups, users,
              [{ PaymentLog.empty with
                  email_uid := some a.email_uid, parser_amount := a.amountString,
                  extracted_code := matchedPhrase, matched_topup_id := some topup.id,
                  decision := "ERROR",
                  reason := some (reason ++ " (source: " ++ a.code_source ++ ")"),
                  raw_subject := some a.subject, short_body_preview := some a.bodyPreview }])

/-- The idempotency gate of confirmTopupFromEmail (line 128): a `payment_logs`
row for this `email_uid` with decision ACCEPTED. -/
def gateHit (db : Db) (uid : String) : Bool :=
  db.payment_logs.any (fun l => l.email_uid = some uid ∧ l.decision = "ACCEPTED")

/-- `confirmTopupFromEmail` from topupConfirmer.js. -/
def confirmTopupFromEmail (a : ConfirmArgs) (db : Db) (now txNow : Int) :
    ConfirmResult × Db :=
  if gateHit db a.email_uid then
    (ConfirmResult.fail ("Email UID " ++ a.email_uid ++ " already processed (idempotency check)"),
     db)
  else
    match confirmCore a db.topups db.users now txNow with
    | (res, topups1, users1, logs) =>
      (res, logs.foldl logPayment { db with topups := topups1, users := users1 })

/-! ## paymentValidator.js: passphrase extraction and rule validation -/

/-- The structured output of the external Python parser, as destructured by
`validatePayment`/`extractPassphraseFromSafeZones` (absent fields take the JS
destructuring defaults: `request_status = ""`, `is_expired = null`, text fields
`""`). -/
structure ParserData where
  amount : Option String
  pay_type : Option String
  request_status : String
  is_expired : Option Bool
  receipt_memo : String
  note_part : String
  subject : String
deriving Repr, DecidableEq

/-- Split a character list at line-break characters (accumulator holds the
current line reversed). -/
def splitLinesAux : List Char → List Char → List String
  | [], acc => [⟨acc.reverse⟩]
  | c :: rest, acc =>
    if c = '\n' ∨ c = '\r' then String.mk acc.reverse :: splitLinesAux rest []
    else splitLinesAux rest (c :: acc)

/-- Split an email body into the lines the multiline regex anchors `^`/`$`
delimit (JS line terminators `\n` and `\r`). -/
def splitLines (s : String) : List String :=
  splitLinesAux s.data []

/-- Match one line against `/^\s*topup\s*:\s*(.+)\s*$/i`: leading whitespace,
"topup" case-insensitively, optional whitespace, a colon, then at least one
character.  The captured text is returned normalized (the greedy `(.+)` keeps
trailing whitespace and `normalizePhrase` removes it, as in the source). -/
def matchTopupLine (line : String) : Option String :=
  let cs := line.data.dropWhile (·.isWhitespace)
  if (cs.take 5).map Char.toLower = ['t', 'o', 'p', 'u', 'p'] then
    match (cs.drop 5).dropWhile (·.isWhitespace) with
    | ':' :: rest => if rest.isEmpty then none else some (normalizePhrase ⟨rest⟩)
    | _ => none
  else none

/-- `extractTopupLine` from paymentValidator.js: first line of the body matching
the TOPUP pattern, normalized; note the result may be `""` when the captured
text is pure whitespace (the JS function returns `""` there, which the caller
treats as falsy). -/
def extractTopupLine (emailBody : String) : Option String :=
  (splitLines emailBody).findSome? matchTopupLine

/-- Return value of `extractPassphraseFromSafeZones`. -/
structure ExtractResult where
  code : Option String
  code_source : Option String
deriving Repr, DecidableEq

/-- `extractPassphraseFromSafeZones` from paymentValidator.js: TOPUP line first,
then the first candidate of `note_part`, `receipt_memo`, `emailSubject ||
parserData.subject` that is non-empty after normalization. -/
def extractPassphraseFromSafeZones (parserData : ParserData) (emailBody : String)
    (emailSubject : String) : ExtractResult :=
  let fallback :=
    let candidates : List (String × String) :=
      [(parserData.note_part, "note_part"),
       (parserData.receipt_memo, "receipt_memo"),
       (jsOr emailSubject parserData.subject, "subject")]
    match candidates.findSome? (fun c =>
        let normalized := normalizePhrase c.1
        if normalized ≠ "" then some (normalized, c.2) else none) with
    | some nc => ⟨some nc.1, some nc.2⟩
    | none => ⟨none, none⟩
  match extractTopupLine emailBody with
  | some topupLine => if topupLine ≠ "" then ⟨some topupLine, some "topup_line"⟩ else fallback
  | none => fallback

/-- Return value of `validatePayment`. -/
structure ValidationResult where
  valid : Bool
  reason : String
  amount : Option ℚ
  codeCandidate : Option String
  code_source : Option String
deriving Repr, DecidableEq

/-- The rule-5 reason (decision IGNORED). -/
def noPassphraseReason : String :=
  "No passphrase found in safe zones (receipt_memo, note_part, subject, TOPUP line)"

/-- An invalid `validatePayment` return (`{ valid: false, reason, codeCandidate:
null, code_source: null }`). -/
def ValidationResult.invalid (reason : String) : ValidationResult :=
  { valid := false, reason := reason, amount := none, codeCandidate := none,
    code_source := none }

/-- `validatePayment` from paymentValidator.js.  Besides the result it returns
the list of `payment_logs` entries the call writes (the JS function writes them
through `logPayment` on the shared db): one entry per failing rule, none on the
valid path. -/
def validatePayment (parserData : ParserData) (emailBody : String)
    (emailSubject : String) (emailUid : String) : ValidationResult × List PaymentLog :=
  let extracted := extractPassphraseFromSafeZones parserData emailBody emailSubject
  let codeCandidate := extracted.code
  let baseLog : PaymentLog :=
    { PaymentLog.empty with
        email_uid := some emailUid, parser_pay_type := parserData.pay_type,
        parser_amount := parserData.amount,
        parser_request_status := some parserData.request_status,
        parser_is_expired := parserData.is_expired, extracted_code := codeCandidate,
        matched_topup_id := none, decision := "IGNORED", reason := none,
        raw_subject := some (jsOr emailSubject parserData.subject),
        short_body_preview := some ((jsOr parserData.receipt_memo
          (jsOr parserData.note_part (jsOr emailSubject parserData.subject))).take 200) }
  -- Rule 1: pay_type must be exactly "sent"
  if parserData.pay_type ≠ some "sent" then
    let reason := "Invalid pay_type: " ++ jsShowOptStr parserData.pay_type ++
      " (only \"sent\" payments accepted)"
    (ValidationResult.invalid reason, [{ baseLog with decision := "REJECTED", reason := some reason }])
  -- Rule 2: amount must exist and be non-blank
  else if parserData.amount = none ∨ parserData.amount = some "" ∨
      jsTrim (jsShowOptStr parserData.amount) = "" then
    let reason := "Amount missing or empty"
    (ValidationResult.invalid reason, [{ baseLog with decision := "REJECTED", reason := some reason }])
  else
    match jsParseFloat (jsShowOptStr parserData.amount) with
    | none =>
      let reason := "Invalid amount: " ++ jsShowOptStr parserData.amount ++ " (must be > 0)"
      (ValidationResult.invalid reason,
       [{ baseLog with decision := "REJECTED", reason := some reason }])
    | some amountNum =>
      if amountNum ≤ 0 then
        let reason := "Invalid amount: " ++ jsShowOptStr parserData.amount ++ " (must be > 0)"
        (ValidationResult.invalid reason,
         [{ baseLog with decision := "REJECTED", reason := some reason }])
      -- Rule 3: request_status must be "" or "active"
      else if parserData.request_status ≠ "" ∧ parserData.request_status ≠ "active" then
        let reason := "Invalid request_status: " ++ parserData.request_status
        (ValidationResult.invalid reason,
         [{ baseLog with decision := "REJECTED", reason := some reason }])
      -- Rule 4: must not be flagged expired
      else if parserData.is_expired = some true then
        let reason := "Payment marked as expired by parser"
        (ValidationResult.invalid reason,
         [{ baseLog with decision := "REJECTED", reason := some reason }])
      -- Rule 5: a passphrase must have been extracted (decision stays IGNORED)
      else
        match codeCandidate with
        | none =>
          (ValidationResult.invalid noPassphraseReason,
           [{ baseLog with decision := "IGNORED", reason := some noPassphraseReason }])
        | some _ =>
          ({ valid := true,
             reason := "Basic validation passed - passphrase extracted from " ++
               jsShowOptStr extracted.code_source,
             amount := some amountNum, codeCandidate := codeCandidate,
             code_source := extracted.code_source }, [])

/-! ## gmailPoller.js (src/unnamed/part_001): dedupe markers, scan pass, poll loop -/

/-- The `mail_markers` primary key `${mailbox}:${uid}`. -/
def markerKey (mailbox uid : String) : String := mailbox ++ ":" ++ uid

/-- `markerExists`: SELECT on `mail_markers` by key (the table is assumed
initialized; the lazily-created-table fallback also reports "not processed"). -/
def markerExists (db : Db) (mailbox uid : String) : Bool :=
  db.mail_markers.contains (markerKey mailbox uid)

/-- `markProcessed`: INSERT the marker; a UNIQUE-constraint violation is
swallowed (insert-or-ignore). -/
def markProcessed (db : Db) (mailbox uid : String) : Db :=
  if markerExists db mailbox uid then db
  else { db with mail_markers := db.mail_markers ++ [markerKey mailbox uid] }

/-- `setStartUid`: upsert of the `gmail_start_uid` app setting. -/
def setStartUid (db : Db) (uid : Nat) : Db :=
  { db with gmail_start_uid := some uid }

/-- Matches the separator `\r?\n\r?\n` at the head of the character list,
returning the remainder. -/
def matchBlankSep : List Char → Option (List Char)
  | '\r' :: '\n' :: '\r' :: '\n' :: rest => some rest
  | '\r' :: '\n' :: '\n' :: rest => some rest
  | '\n' :: '\r' :: '\n' :: rest => some rest
  | '\n' :: '\n' :: rest => some rest
  | _ => none

/-- Everything after the first blank-line separator, if any. -/
def afterBlankSep : List Char → Option (List Char)
  | [] => none
  | c :: rest =>
    match matchBlankSep (c :: rest) with
    | some tail => some tail
    | none => afterBlankSep rest

/-- The body-text extraction of processEmails (line 391):
`emailSource.match(/\r?\n\r?\n([\s\S]*)$/)`, falling back to the whole source. -/
def jsBodyText (emailSource : String) : String :=
  match afterBlankSep emailSource.data with
  | some rest => ⟨rest⟩
  | none => emailSource

/-- The environment's behaviour for one message uid: `fetchThrow` models
`client.fetchOne` throwing (caught by the per-message catch), `noSource` a
fetch that returns no usable source, and `fetched` a fetched message (computed
envelope subject, envelope date, raw source) whose parse attempt either throws
(`.error`) or returns parser data (`.ok`).  Flag operations
(`messageFlagsAdd`) have no modelled effect and are assumed not to throw. -/
inductive MsgOutcome where
  | fetchThrow (errMsg : String)
  | noSource (subj : String)
  | fetched (source : String) (subj : String) (date : Option Int)
      (parsed : Except String ParserData)
deriving Repr

/-- The per-pass mutable state of the processEmails loop. -/
structure ScanState where
  db : Db
  highestProcessedUid : Int
  processedCount : Nat
  parsedCount : Nat
  confirmedCount : Nat
  rejectedCount : Nat
deriving Repr

/-- One iteration of the processEmails for-loop (lines 335–513).  Branches:
uid below the start boundary; dedupe-marker hit (skipped but advances
`highestProcessedUid`); fetch with no source (IGNORED logged, `continue`
before the marker-insertion block); per-message throw (ERROR logged, falls
through to the marker-insertion block); parser throw (ERROR logged,
`continue`); validation failure (marker inserted inline, `continue`);
confirmation attempt (marker inserted, `highestProcessedUid` advanced). -/
def processMessage (mailbox : String) (env : Nat → MsgOutcome) (now txNow : Int)
    (startUid : Nat) (st : ScanState) (uidNum : Nat) : ScanState :=
  if uidNum < startUid then st
  else
    let uid := toString uidNum
    if markerExists st.db mailbox uid then
      { st with highestProcessedUid := max st.highestProcessedUid (uidNum : Int) }
    else
      match env uidNum with
      | .noSource subj =>
        -- logs IGNORED, flags seen, then `continue`: no marker, no uid advance
        let entry : PaymentLog :=
          { PaymentLog.empty with
              email_uid := some uid, decision := "IGNORED",
              reason := some "Could not fetch email source", raw_subject := some subj }
        { st with db := logPayment st.db entry }
      | .fetchThrow errMsg =>
        -- per-message catch: logs ERROR, savedAny = true, falls through to the
        -- marker-insertion block which inserts the marker and advances the uid
        let db1 := logPayment st.db
          { PaymentLog.empty with
              email_uid := some uid, decision := "ERROR",
              reason := some ("Email processing error: " ++ errMsg),
              raw_subject := some "Unknown" }
        { st with db := markProcessed db1 mailbox uid,
                  highestProcessedUid := max st.highestProcessedUid (uidNum : Int) }
      | .fetched source subj date parsed =>
        let bodyText := jsBodyText source
        match parsed with
        | .error errMsg =>
          -- parser throw: logs ERROR, flags seen, then `continue`: no marker,
          -- no uid advance
          let entry : PaymentLog :=
            { PaymentLog.empty with
                email_uid := some uid, decision := "ERROR",
                reason := some ("Python parser error: " ++ errMsg),
                raw_subject := some subj,
                short_body_preview := some (bodyText.take 200) }
          { st with db := logPayment st.db entry,
                    rejectedCount := st.rejectedCount + 1 }
        | .ok parserData =>
          match validatePayment parserData bodyText subj uid with
          | (validation, vlogs) =>
            let db1 := vlogs.foldl logPayment st.db
            if !validation.valid then
              -- marker inserted inline (line 454), then `continue`: no uid advance
              { st with db := markProcessed db1 mailbox uid,
                        parsedCount := st.parsedCount + 1,
                        rejectedCount := st.rejectedCount + 1 }
            else
              match confirmTopupFromEmail
                  { codeCandidate := validation.codeCandidate,
                    code_source := validation.code_source.getD "unknown",
                    amountString := parserData.amount, email_uid := uid,
                    subject := subj, bodyPreview := bodyText.take 200,
                    emailDate := date } db1 now txNow with
              | (confirmation, db2) =>
                -- marker inserted at line 487 and again in the savedAny block
                let db3 := markProcessed (markProcessed db2 mailbox uid) mailbox uid
                let succInc : Nat := if confirmation.success then 1 else 0
                let failInc : Nat := if confirmation.success then 0 else 1
                { st with db := db3,
                          highestProcessedUid := max st.highestProcessedUid (uidNum : Int),
                          parsedCount := st.parsedCount + 1,
                          processedCount := st.processedCount + succInc,
                          confirmedCount := st.confirmedCount + succInc,
                          rejectedCount := st.rejectedCount + failInc }

/-- The summary object processEmails returns. -/
structure ScanReport where
  armed : Bool
  processed : Nat
  found : Nat
  parsed : Nat
  confirmed : Nat
  rejected : Nat
  mailbox : String
  startUid : Nat
  highestProcessedUid : Int
deriving Repr, DecidableEq

/-- `MIN(armed_uidnext)` over PENDING topups that have one (lines 298–304). -/
def minArmedUid (db : Db) : Option Nat :=
  ((db.topups.filter (fun t => t.status = "PENDING")).filterMap Topup.armed_uidnext).min?

/-- The watermark initialization done by `openMailboxWithFallback` (lines
261–272): on a successful open, if `gmail_start_uid` is unset and the mailbox
reports a positive UIDNEXT, store it. -/
def openMailboxStartUid (db : Db) (mailboxUidNext : Option Nat) : Db :=
  match mailboxUidNext, db.gmail_start_uid with
  | some uidNext, none => if 0 < uidNext then setStartUid db uidNext else db
  | _, _ => db

/-- `processEmails` from gmailPoller.js.  `mailbox` is the folder the fallback
list opened, `mailboxUidNext` its reported UIDNEXT, `uids` the search result,
`env` the per-uid fetch/parse behaviour, `now` the JS clock of the pass and
`txNow` the SQLite clock used inside credit transactions. -/
def processEmails (db : Db) (mailbox : String) (mailboxUidNext : Option Nat)
    (uids : List Nat) (env : Nat → MsgOutcome) (now txNow : Int) : Db × ScanReport :=
  let db0 := openMailboxStartUid db mailboxUidNext
  match minArmedUid db0 with
  | none =>
    ({ db0 with gmail_last_checked_at := some now },
     { armed := false, processed := 0, found := 0, parsed := 0, confirmed := 0,
       rejected := 0, mailbox := mailbox, startUid := 0, highestProcessedUid := -1 })
  | some startUid =>
    if uids.isEmpty then
      ({ db0 with gmail_last_checked_at := some now },
       { armed := true, processed := 0, found := 0, parsed := 0, confirmed := 0,
         rejected := 0, mailbox := mailbox, startUid := startUid,
         highestProcessedUid := (startUid : Int) - 1 })
    else
      let finalState := uids.foldl (processMessage mailbox env now txNow startUid)
        { db := db0, highestProcessedUid := (startUid : Int) - 1, processedCount := 0,
          parsedCount := 0, confirmedCount := 0, rejectedCount := 0 }
      let db1 :=
        if (startUid : Int) ≤ finalState.highestProcessedUid then
          setStartUid finalState.db (finalState.highestProcessedUid + 1).toNat
        else finalState.db
      ({ db1 with gmail_last_checked_at := some now },
       { armed := true, processed := finalState.processedCount, found := uids.length,
         parsed := finalState.parsedCount, confirmed := finalState.confirmedCount,
         rejected := finalState.rejectedCount, mailbox := mailbox, startUid := startUid,
         highestProcessedUid := finalState.highestProcessedUid })

/-! ## Poll loop backoff (gmailPoller.js lines 553–623) -/

/-- How one `pollGmail` cycle can turn out. -/
inductive CycleOutcome where
  | success
  | connectError
  | scanError
deriving Repr, DecidableEq

/-- `backoffMs` initial value (line 553). -/
def BACKOFF_BASE : Nat := 2000

/-- Backoff cap (lines 586, 617). -/
def BACKOFF_MAX : Nat := 60000

/-- Fixed poll interval of `pollLoop` (line 601). -/
def POLL_INTERVAL : Nat := 20000

/-- The update `pollGmail` applies to the module-global `backoffMs`: reset to
the base on success, double up to the cap on any caught error.  `pollGmail`
catches every error internally and returns normally in all cases. -/
def pollGmailBackoff (backoffMs : Nat) (outcome : CycleOutcome) : Nat :=
  match outcome with
  | .success => BACKOFF_BASE
  | .connectError => min (backoffMs * 2) BACKOFF_MAX
  | .scanError => min (backoffMs * 2) BACKOFF_MAX

/-- Whether `await pollGmail(...)` raises into `pollLoop`'s catch branch: never,
because `pollGmail` wraps its whole body in try/catch/finally without
rethrowing. -/
def pollGmailRaises (_outcome : CycleOutcome) : Bool := false

/-- One iteration of the `pollLoop` while-body: returns the value of
`backoffMs` after the iteration and the delay slept before the next cycle.
The try branch (always taken, since `pollGmail` never throws) resets
`backoffMs` to 2000 and sleeps the fixed `POLL_INTERVAL`; the catch branch
(dead code) would sleep the current backoff and double it. -/
def pollLoopIter (backoffMs : Nat) (outcome : CycleOutcome) : Nat × Nat :=
  let backoffAfterPollGmail := pollGmailBackoff backoffMs outcome
  if pollGmailRaises outcome then
    (min (backoffAfterPollGmail * 2) BACKOFF_MAX, backoffAfterPollGmail)
  else
    (BACKOFF_BASE, POLL_INTERVAL)

/-! ## Spec-side definition for the safe-zone priority order

`extractSafeZonesSpec` restates the extraction priority as a flat
first-non-empty scan, with candidate 4 being the email's own subject header
falling back to the extractor's subject when the header is empty (what the
code actually does); it is compared against `extractPassphraseFromSafeZones`
in the refinement theorem for C6. -/

def extractSafeZonesSpec (parserData : ParserData) (emailBody emailSubject : String) :
    ExtractResult :=
  let candidates : List (String × String) :=
    [((extractTopupLine emailBody).getD "", "topup_line"),
     (normalizePhrase parserData.note_part, "note_part"),
     (normalizePhrase parserData.receipt_memo, "receipt_memo"),
     (normalizePhrase (jsOr emailSubject parserData.subject), "subject")]
  match candidates.find? (fun c => c.1 ≠ "") with
  | some c => ⟨some c.1, some c.2⟩
  | none => ⟨none, none⟩

/-- Total coin balance across the `users` table. -/
def usersBalanceSum (users : List User) : Int :=
  (users.map User.balance_coins).sum

/-! ## Concrete fixtures used by witnesses and counterexamples -/

/-- A pending topup request (expiry instant 1000, armed at mailbox uid 50);
its stored `amount_coins` of 999 is deliberately different from any email
amount, to witness that credits never come from the request record. -/
def fixTopup : Topup :=
  { id := 1, userId := 7, code := "Vine Oak", status := "PENDING", expiresAt := 1000,
    createdAt := 0, amount_coins := some 999, armed_uidnext := some 50 }

/-- The owning user with balance 100. -/
def fixUser : User := { id := 7, balance_coins := 100 }

/-- A database with one pending topup and its owner. -/
def fixDb : Db :=
  { topups := [fixTopup], users := [fixUser], payment_logs := [], mail_markers := [],
    gmail_start_uid := none, gmail_last_checked_at := none }

/-- Confirmation arguments for an email reporting amount "25.9" whose
passphrase matches `fixTopup` up to case/whitespace. -/
def fixArgs : ConfirmArgs :=
  { codeCandidate := some "vine  OAK", code_source := "note_part",
    amountString := some "25.9", email_uid := "M1", subject := "s", bodyPreview := "b",
    emailDate := none }

/-- A second pending topup whose phrase collides with `fixTopup` after
normalization (the illegal state the multi-match safety net guards). -/
def fixTopupClash : Topup :=
  { id := 2, userId := 7, code := "VINE  oak", status := "PENDING", expiresAt := 1000,
    createdAt := 5, amount_coins := none, armed_uidnext := none }

/-- Database with two colliding pending topups. -/
def fixDbClash : Db :=
  { fixDb with topups := [fixTopup, fixTopupClash] }

/-- Parser data that passes every validation rule (used to show the valid path
of `validatePayment` writes no log entry). -/
def fixValidPd : ParserData :=
  { amount := some "40", pay_type := some "sent", request_status := "", is_expired := none,
    receipt_memo := "", note_part := "code x", subject := "" }

/-- Parser data failing rule 1 (`pay_type` is "request"). -/
def fixRejectPd : ParserData :=
  { fixValidPd with pay_type := some "request" }

/-- Parser data where the extractor supplied a subject; used to show the
header wins over `facts.subject`, contradicting the spec's stated fallback
direction. -/
def fixSubjectPd : ParserData :=
  { amount := none, pay_type := none, request_status := "", is_expired := none,
    receipt_memo := "", note_part := "", subject := "aaa" }

/-- Scan-pass fixture: stored watermark 100, one pending topup armed at 50,
and the uid-50 marker already present. -/
def fixScanDb : Db :=
  { topups := [fixTopup], users := [fixUser], payment_logs := [],
    mail_markers := ["INBOX:50"], gmail_start_uid := some 100,
    gmail_last_checked_at := none }

/-- Environment where every fetched message's parse throws. -/
def fixParserErrorEnv : Nat → MsgOutcome :=
  fun _ => .fetched "raw source" "subj" none (.error "boom")

/-- Scan-pass fixture without pre-existing markers or watermark (used for the
missing-marker counterexample). -/
def fixScanDb2 : Db :=
  { topups := [fixTopup], users := [fixUser], payment_logs := [], mail_markers := [],
    gmail_start_uid := none, gmail_last_checked_at := none }

/-- Confirmation arguments whose amount string is non-numeric. -/
def fixArgsBad : ConfirmArgs :=
  { fixArgs with amountString := some "abc", email_uid := "M3" }

/-- The ACCEPTED log entry the fixture confirmation writes (used by the C10
witness). -/
def fixAcceptedEntry : PaymentLog :=
  { PaymentLog.empty with
      email_uid := some "M1", parser_amount := some "25.9",
      extracted_code := some "Vine Oak", matched_topup_id := some 1,
      decision := "ACCEPTED",
      reason := some ("Payment confirmed: 25 coins credited to user 7" ++
        " (source: note_part, coins from email)"),
      raw_subject := some "s", short_body_preview := some "b" }

/-- A database that already holds an ACCEPTED log row for email uid "M1". -/
def fixAcceptedDb : Db :=
  { fixDb with payment_logs := [{ PaymentLog.empty with
      email_uid := some "M1", decision := "ACCEPTED" }] }

/-! # Theorems

## Preservation lemmas -/

theorem logPayment_topups (db : Db) (e : PaymentLog) :
    (logPayment db e).topups = db.topups := by
  simp only [logPayment]
  repeat' split
  all_goals rfl

theorem logPayment_users (db : Db) (e : PaymentLog) :
    (logPayment db e).users = db.users := by
  simp only [logPayment]
  repeat' split
  all_goals rfl

theorem logPayment_markers (db : Db) (e : PaymentLog) :
    (logPayment db e).mail_markers = db.mail_markers := by
  simp only [logPayment]
  repeat' split
  all_goals rfl

theorem logPayment_start_uid (db : Db) (e : PaymentLog) :
    (logPayment db e).gmail_start_uid = db.gmail_start_uid := by
  simp only [logPayment]
  repeat' split
  all_goals rfl

theorem foldl_logPayment_topups (es : List PaymentLog) (db : Db) :
    (es.foldl logPayment db).topups = db.topups := by
  induction es generalizing db with
  | nil => rfl
  | cons e es ih => rw [List.foldl_cons, ih, logPayment_topups]

theorem foldl_logPayment_users (es : List PaymentLog) (db : Db) :
    (es.foldl logPayment db).users = db.users := by
  induction es generalizing db with
  | nil => rfl
  | cons e es ih => rw [List.foldl_cons, ih, logPayment_users]

theorem gateHit_logPayment (db : Db) (e : PaymentLog) (uid : String)
    (h : e.decision ≠ "ACCEPTED") :
    gateHit (logPayment db e) uid = gateHit db uid := by
  simp only [logPayment, gateHit]
  repeat' split
  all_goals simp_all [List.any_append]

theorem gateHit_foldl_logPayment (es : List PaymentLog) (db : Db) (uid : String)
    (h : ∀ e ∈ es, e.decision ≠ "ACCEPTED") :
    gateHit (es.foldl logPayment db) uid = gateHit db uid := by
  induction es generalizing db with
  | nil => rfl
  | cons e es ih =>
    rw [List.foldl_cons, ih _ (fun x hx => h x (List.mem_cons_of_mem _ hx)),
      gateHit_logPayment _ _ _ (h e (List.mem_cons_self _ _))]

theorem gateHit_logPayment_accepted (db : Db) (e : PaymentLog) (uid : String)
    (h1 : e.email_uid = some uid) (h2 : e.decision = "ACCEPTED")
    (h3 : ∀ l ∈ db.payment_logs, l.email_uid ≠ some uid) :
    gateHit (logPayment db e) uid = true := by
  simp only [logPayment, gateHit]
  have hne : e.decision ≠ "" := by rw [h2]; decide
  have hany : db.payment_logs.any (fun l => l.email_uid = some uid) = false := by
    simp only [List.any_eq_false, decide_eq_true_eq]
    exact h3
  rw [if_neg hne, h1]
  dsimp only
  rw [hany]
  simp [List.any_append, h2]

/-! ## Shape of `confirmCore` outcomes -/

theorem confirmCore_fail (a : ConfirmArgs) (tp : List Topup) (us : List User)
    (now txNow : Int) (res : ConfirmResult) (tp1 : List Topup) (us1 : List User)
    (logs : List PaymentLog)
    (hE : confirmCore a tp us now txNow = (res, tp1, us1, logs))
    (h : res.success = false) :
    tp1 = tp ∧ us1 = us ∧
      ∀ e ∈ logs, e.decision ≠ "ACCEPTED" ∧ e.email_uid = some a.email_uid := by
  simp only [confirmCore] at hE
  repeat' split at hE
  all_goals (injection hE with h1 h2; injection h2 with h2 h3; injection h3 with h3 h4)
  all_goals subst h1 h2 h3 h4
  all_goals first
    | (refine ⟨rfl, rfl, ?_⟩; intro e he; simp only [List.mem_singleton] at he; subst he;
       exact ⟨by simp, rfl⟩)
    | simp at h

theorem confirmCore_success (a : ConfirmArgs) (tp : List Topup) (us : List User)
    (now txNow : Int) (res : ConfirmResult) (tp1 : List Topup) (us1 : List User)
    (logs : List PaymentLog)
    (hE : confirmCore a tp us now txNow = (res, tp1, us1, logs))
    (h : res.success = true) :
    ∃ e, logs = [e] ∧ e.decision = "ACCEPTED" ∧ e.email_uid = some a.email_uid := by
  simp only [confirmCore] at hE
  repeat' split at hE
  all_goals (injection hE with h1 h2; injection h2 with h2 h3; injection h3 with h3 h4)
  all_goals subst h1 h2 h3 h4
  all_goals first
    | exact ⟨_, rfl, rfl, rfl⟩
    | simp [ConfirmResult.fail] at h

theorem confirmTopupFromEmail_gate (a : ConfirmArgs) (db : Db) (now txNow : Int)
    (h : gateHit db a.email_uid = true) :
    confirmTopupFromEmail a db now txNow =
      (ConfirmResult.fail
        ("Email UID " ++ a.email_uid ++ " already processed (idempotency check)"), db) := by
  simp [confirmTopupFromEmail, h]

/-- C2: calling `confirmTopupFromEmail` twice with the same `email_uid` and
otherwise identical arguments credits the balance at most once.  First
conjunct: whenever a `payment_logs` row with decision ACCEPTED exists for the
uid, the call fails with the "already processed" reason and leaves the
database untouched, for arbitrary contents of the `topups` and `users` tables
(so it neither reads nor writes them).  Second conjunct: the second of two
identical calls returns `success = false` and leaves the balances exactly as
the first call left them. -/
theorem confirm_idempotency :
    (∀ (db : Db) (T : List Topup) (U : List User) (a : ConfirmArgs) (now txNow : Int),
      gateHit db a.email_uid = true →
      confirmTopupFromEmail a { db with topups := T, users := U } now txNow =
        (ConfirmResult.fail
          ("Email UID " ++ a.email_uid ++ " already processed (idempotency check)"),
         { db with topups := T, users := U })) ∧
    (∀ (db : Db) (a : ConfirmArgs) (now txNow : Int),
      (∀ l ∈ db.payment_logs, l.email_uid ≠ some a.email_uid) →
      (confirmTopupFromEmail a (confirmTopupFromEmail a db now txNow).2 now txNow).1.success
          = false ∧
      (confirmTopupFromEmail a (confirmTopupFromEmail a db now txNow).2 now txNow).2.users =
        (confirmTopupFromEmail a db now txNow).2.users) := by
  constructor
  · intro db T U a now txNow h
    exact confirmTopupFromEmail_gate a _ now txNow h
  · intro db a now txNow hNoLog
    by_cases hg : gateHit db a.email_uid = true
    · rw [confirmTopupFromEmail_gate a db now txNow hg,
        confirmTopupFromEmail_gate a db now txNow hg]
      exact ⟨rfl, rfl⟩
    · have hg' : gateHit db a.email_uid = false := by
        revert hg; cases gateHit db a.email_uid <;> simp
      rcases hC : confirmCore a db.topups db.users now txNow with ⟨res, tp1, us1, logs⟩
      have h1 : confirmTopupFromEmail a db now txNow =
          (res, logs.foldl logPayment { db with topups := tp1, users := us1 }) := by
        simp [confirmTopupFromEmail, hg', hC]
      cases hs : res.success
      · obtain ⟨htp, hus, hlogs⟩ :=
          confirmCore_fail a db.topups db.users now txNow res tp1 us1 logs hC hs
        subst htp hus
        have hTop1 : (logs.foldl logPayment
            { db with topups := db.topups, users := db.users }).topups = db.topups := by
          rw [foldl_logPayment_topups]
        have hUs1 : (logs.foldl logPayment
            { db with topups := db.topups, users := db.users }).users = db.users := by
          rw [foldl_logPayment_users]
        have hGate1 : gateHit (logs.foldl logPayment
            { db with topups := db.topups, users := db.users }) a.email_uid = false := by
          rw [gateHit_foldl_logPayment _ _ _ (fun e he => (hlogs e he).1)]
          exact hg'
        have h2core : confirmCore
            (a := a)
            ((logs.foldl logPayment { db with topups := db.topups, users := db.users }).topups)
            ((logs.foldl logPayment { db with topups := db.topups, users := db.users }).users)
            now txNow = (res, db.topups, db.users, logs) := by
          rw [hTop1, hUs1]; exact hC
        have h2 : confirmTopupFromEmail a
            (logs.foldl logPayment { db with topups := db.topups, users := db.users })
            now txNow =
            (res, logs.foldl logPayment
              { (logs.foldl logPayment { db with topups := db.topups, users := db.users })
                  with topups := db.topups, users := db.users }) := by
          simp [confirmTopupFromEmail, hGate1, h2core]
        rw [h1]
        dsimp only
        rw [h2]
        refine ⟨hs, ?_⟩
        dsimp only
        rw [foldl_logPayment_users, foldl_logPayment_users]
      · obtain ⟨e, hlogse, hdec, huid⟩ :=
          confirmCore_success a db.topups db.users now txNow res tp1 us1 logs hC hs
        subst hlogse
        have hGate1 : gateHit ([e].foldl logPayment
            { db with topups := tp1, users := us1 }) a.email_uid = true := by
          simp only [List.foldl_cons, List.foldl_nil]
          exact gateHit_logPayment_accepted _ _ _ huid hdec (fun l hl => hNoLog l hl)
        rw [h1]
        dsimp only
        rw [confirmTopupFromEmail_gate a _ now txNow hGate1]
        exact ⟨rfl, rfl⟩

/-- Witness for C2: both conjuncts instantiated at concrete inputs (a database
already holding an ACCEPTED row for "M1", and a fresh confirm-then-replay
pair). -/
theorem confirm_idempotency_witness :
    (confirmTopupFromEmail fixArgs
        { fixAcceptedDb with topups := [fixTopup], users := [fixUser] } 500 500 =
      (ConfirmResult.fail
        ("Email UID " ++ fixArgs.email_uid ++ " already processed (idempotency check)"),
       { fixAcceptedDb with topups := [fixTopup], users := [fixUser] })) ∧
    ((confirmTopupFromEmail fixArgs
        (confirmTopupFromEmail fixArgs fixDb 500 500).2 500 500).1.success = false ∧
     (confirmTopupFromEmail fixArgs
        (confirmTopupFromEmail fixArgs fixDb 500 500).2 500 500).2.users =
       (confirmTopupFromEmail fixArgs fixDb 500 500).2.users) :=
  ⟨confirm_idempotency.1 fixAcceptedDb [fixTopup] [fixUser] fixArgs 500 500 (by decide),
   confirm_idempotency.2 fixDb fixArgs 500 500 (by decide)⟩

/-! ## The matcher only returns active PENDING topups -/

theorem mem_getActiveTopups (topups : List Topup) (now : Int) (t : Topup)
    (h : t ∈ getActiveTopups topups now) : t.status = "PENDING" ∧ now < t.expiresAt := by
  unfold getActiveTopups at h
  have h2 := (List.Perm.mem_iff (List.perm_insertionSort _ _)).1 h
  rw [List.mem_filter] at h2
  simpa using h2.2

theorem findMatch_active (topups : List Topup) (now : Int) (cand : Option String)
    (t : Topup) (h : (findMatchingTopupByPhrase topups now cand).topup = some t) :
    t ∈ getActiveTopups topups now ∧ t.status = "PENDING" ∧ now < t.expiresAt := by
  simp only [findMatchingTopupByPhrase] at h
  repeat' split at h
  all_goals simp_all
  rename_i x s hc hn ml m hne heq
  obtain rfl := h
  have h1 : m ∈ getActiveTopups topups now := by
    have h2 : m ∈ List.filter (fun u => decide (normalizePhrase s = normalizePhrase u.code))
        (getActiveTopups topups now) := by
      rw [heq]; exact List.mem_singleton_self m
    exact List.mem_of_mem_filter h2
  exact ⟨h1, mem_getActiveTopups _ _ _ h1⟩

/-! ## Gate and transaction characterizations -/

theorem gateHit_false_of_noLog (db : Db) (uid : String)
    (h : ∀ l ∈ db.payment_logs, l.email_uid ≠ some uid) :
    gateHit db uid = false := by
  simp only [gateHit, List.any_eq_false, decide_eq_true_eq]
  intro l hl hcon
  exact h l hl hcon.1

theorem logPayment_append (db : Db) (e : PaymentLog) (uid : String)
    (h1 : e.email_uid = some uid) (h2 : e.decision ≠ "")
    (h3 : ∀ l ∈ db.payment_logs, l.email_uid ≠ some uid) :
    logPayment db e = { db with payment_logs := db.payment_logs ++
      [{ e with short_body_preview := e.short_body_preview.map (·.take 200) }] } := by
  simp only [logPayment]
  rw [if_neg h2, h1]
  dsimp only
  have hany : (db.payment_logs.any fun l => decide (l.email_uid = some uid)) = false := by
    simp only [List.any_eq_false, decide_eq_true_eq]; exact h3
  rw [hany]
  simp

theorem confirmTransaction_ok (tp : List Topup) (us : List User) (tid oid : Nat)
    (c txNow : Int) (h1 : countUpdatableTopups tp tid txNow = 1)
    (h2 : countUsersById us oid = 1) :
    confirmTransaction tp us tid oid c txNow =
      .ok (confirmUpdateTopups tp tid c txNow, creditUsers us oid c) := by
  simp only [confirmTransaction, h1, h2]
  norm_num

theorem confirmTransaction_error (tp : List Topup) (us : List User) (tid oid : Nat)
    (c txNow : Int)
    (h : ¬(countUpdatableTopups tp tid txNow = 1 ∧ countUsersById us oid = 1)) :
    ∃ msg, confirmTransaction tp us tid oid c txNow = .error msg := by
  simp only [confirmTransaction]
  by_cases h0 : countUpdatableTopups tp tid txNow = 0
  · rw [if_pos h0]; exact ⟨_, rfl⟩
  · rw [if_neg h0]
    by_cases h1 : countUpdatableTopups tp tid txNow = 1
    · have h2 : ¬ countUsersById us oid = 1 := fun hk2 => h ⟨h1, hk2⟩
      rw [if_neg (by simp [h1])]
      rw [if_pos h2]
      exact ⟨_, rfl⟩
    · rw [if_pos h1]
      rcases hf : (confirmUpdateTopups tp tid c txNow).find? (fun u => u.id = tid) with _ | ct
      · rw [hf]; exact ⟨_, rfl⟩
      · rw [hf]
        dsimp only
        by_cases hct : ct.status = "CONFIRMED"
        · rw [if_pos hct]; exact ⟨_, rfl⟩
        · rw [if_neg hct]; exact ⟨_, rfl⟩

/-- C1: for every call to `confirmTopupFromEmail` that reaches the atomic
credit transaction (idempotency gate passed, positive parsed coin amount,
unique phrase match, pending/unexpired/skew checks passed): if both UPDATE
statements hit exactly one row the transaction commits — the matched topup
becomes CONFIRMED with `amount_coins` set to the credited amount and the
owner's balance is incremented by exactly that amount, with an ACCEPTED log
row; in every other case the transaction throws, the `topups` and `users`
tables are left unchanged (rollback), an ERROR log entry is written, and the
call returns `success = false`. -/
theorem confirm_atomic_credit
    (a : ConfirmArgs) (db : Db) (now txNow : Int) (c : Int) (t : Topup)
    (hNoLog : ∀ l ∈ db.payment_logs, l.email_uid ≠ some a.email_uid)
    (hCoins : jsCoins a.amountString = some c) (hPos : 0 < c)
    (hMatch : (findMatchingTopupByPhrase db.topups now a.codeCandidate).topup = some t)
    (hExp : now ≤ t.expiresAt)
    (hSkew : ∀ d, a.emailDate = some d → d ≤ t.expiresAt + 5 * 60 * 1000) :
    (countUpdatableTopups db.topups t.id txNow = 1 ∧ countUsersById db.users t.userId = 1 →
      (confirmTopupFromEmail a db now txNow).1.success = true ∧
      (confirmTopupFromEmail a db now txNow).1.coins = some c ∧
      (confirmTopupFromEmail a db now txNow).2.topups =
        confirmUpdateTopups db.topups t.id c txNow ∧
      (confirmTopupFromEmail a db now txNow).2.users = creditUsers db.users t.userId c ∧
      ∃ e, (confirmTopupFromEmail a db now txNow).2.payment_logs = db.payment_logs ++ [e] ∧
        e.decision = "ACCEPTED") ∧
    (¬(countUpdatableTopups db.topups t.id txNow = 1 ∧ countUsersById db.users t.userId = 1) →
      (confirmTopupFromEmail a db now txNow).1.success = false ∧
      (confirmTopupFromEmail a db now txNow).2.topups = db.topups ∧
      (confirmTopupFromEmail a db now txNow).2.users = db.users ∧
      ∃ e, (confirmTopupFromEmail a db now txNow).2.payment_logs = db.payment_logs ++ [e] ∧
        e.decision = "ERROR") := by
  have hPending := (findMatch_active db.topups now a.codeCandidate t hMatch).2.1
  have hGate := gateHit_false_of_noLog db a.email_uid hNoLog
  have hSkewB : (a.emailDate.any fun d => decide (t.expiresAt + 5 * 60 * 1000 < d)) = false := by
    cases hd : a.emailDate with
    | none => rfl
    | some d =>
      simp only [Option.any_some, decide_eq_false_iff_not, not_lt]
      exact hSkew d hd
  have hNotLe : ¬ c ≤ 0 := not_le.2 hPos
  have hNotLt : ¬ now > t.expiresAt := not_lt.2 hExp
  constructor
  · intro hK
    have hTx := confirmTransaction_ok db.topups db.users t.id t.userId c txNow hK.1 hK.2
    have hconf : confirmTopupFromEmail a db now txNow =
        ({ success := true,
           reason := "Payment confirmed: " ++ toString c ++ " coins credited",
           topupId := some t.id, userId := some t.userId, coins := some c,
           extracted_code := (findMatchingTopupByPhrase db.topups now a.codeCandidate).matchedPhrase },
         logPayment { db with topups := confirmUpdateTopups db.topups t.id c txNow,
                              users := creditUsers db.users t.userId c }
           ({ PaymentLog.empty with
               email_uid := some a.email_uid, parser_amount := a.amountString,
               extracted_code := (findMatchingTopupByPhrase db.topups now a.codeCandidate).matchedPhrase,
               matched_topup_id := some t.id,
               decision := "ACCEPTED",
               reason := some ("Payment confirmed: " ++ toString c ++
                 " coins credited to user " ++ toString t.userId ++
                 " (source: " ++ a.code_source ++ ", coins from email)"),
               raw_subject := some a.subject, short_body_preview := some a.bodyPreview })) := by
      simp only [confirmTopupFromEmail, hGate, Bool.false_eq_true, if_false]
      simp only [confirmCore, hCoins, hMatch, hPending, hSkewB, hTx]
      rw [if_neg hNotLe]
      simp [hNotLt]
    rw [hconf]
    refine ⟨rfl, rfl, ?_, ?_, ?_⟩
    · rw [logPayment_topups]
    · rw [logPayment_users]
    · rw [logPayment_append
        { db with topups := confirmUpdateTopups db.topups t.id c txNow,
                  users := creditUsers db.users t.userId c }
        _ a.email_uid rfl (by simp) (fun l hl => hNoLog l hl)]
      exact ⟨_, rfl, rfl⟩
  · intro hK
    obtain ⟨msg, hTx⟩ := confirmTransaction_error db.topups db.users t.id t.userId c txNow hK
    have hconf : confirmTopupFromEmail a db now txNow =
        (ConfirmResult.fail ("Database transaction failed: " ++ msg),
         logPayment { db with topups := db.topups, users := db.users }
           ({ PaymentLog.empty with
               email_uid := some a.email_uid, parser_amount := a.amountString,
               extracted_code := (findMatchingTopupByPhrase db.topups now a.codeCandidate).matchedPhrase,
               matched_topup_id := some t.id,
               decision := "ERROR",
               reason := some ("Database transaction failed: " ++ msg ++
                 " (source: " ++ a.code_source ++ ")"),
               raw_subject := some a.subject, short_body_preview := some a.bodyPreview })) := by
      simp only [confirmTopupFromEmail, hGate, Bool.false_eq_true, if_false]
      simp only [confirmCore, hCoins, hMatch, hPending, hSkewB, hTx]
      rw [if_neg hNotLe]
      simp [hNotLt]
    rw [hconf]
    refine ⟨rfl, ?_, ?_, ?_⟩
    · rw [logPayment_topups]
    · rw [logPayment_users]
    · rw [logPayment_append { db with topups := db.topups, users := db.users }
        _ a.email_uid rfl (by simp) (fun l hl => hNoLog l hl)]
      exact ⟨_, rfl, rfl⟩

/-- Witness for C1 at the concrete fixture (the commit case applies there:
both row counts are 1, and the email amount "25.9" credits 25 coins). -/
theorem confirm_atomic_credit_witness :
    (countUpdatableTopups fixDb.topups fixTopup.id 500 = 1 ∧
        countUsersById fixDb.users fixTopup.userId = 1 →
      (confirmTopupFromEmail fixArgs fixDb 500 500).1.success = true ∧
      (confirmTopupFromEmail fixArgs fixDb 500 500).1.coins = some 25 ∧
      (confirmTopupFromEmail fixArgs fixDb 500 500).2.topups =
        confirmUpdateTopups fixDb.topups fixTopup.id 25 500 ∧
      (confirmTopupFromEmail fixArgs fixDb 500 500).2.users =
        creditUsers fixDb.users fixTopup.userId 25 ∧
      ∃ e, (confirmTopupFromEmail fixArgs fixDb 500 500).2.payment_logs =
          fixDb.payment_logs ++ [e] ∧ e.decision = "ACCEPTED") ∧
    (¬(countUpdatableTopups fixDb.topups fixTopup.id 500 = 1 ∧
        countUsersById fixDb.users fixTopup.userId = 1) →
      (confirmTopupFromEmail fixArgs fixDb 500 500).1.success = false ∧
      (confirmTopupFromEmail fixArgs fixDb 500 500).2.topups = fixDb.topups ∧
      (confirmTopupFromEmail fixArgs fixDb 500 500).2.users = fixDb.users ∧
      ∃ e, (confirmTopupFromEmail fixArgs fixDb 500 500).2.payment_logs =
          fixDb.payment_logs ++ [e] ∧ e.decision = "ERROR") :=
  confirm_atomic_credit fixArgs fixDb 500 500 25 fixTopup (by decide) (by decide) (by decide)
    (by decide) (by decide) (fun _ hd => Option.noConfusion hd)

/-! ## Poll-loop backoff (C9) and scan-pass marker/watermark behaviour (C5, C8) -/

/-- C9 (code bug): the polling loop sleeps the fixed 20-second interval and
resets `backoffMs` to the 2-second base after *every* cycle, including failed
ones — `pollGmail` swallows connect and scan errors, so `pollLoop`'s backoff
branch is dead code and the delay never doubles.  In particular a cycle whose
connect throws (`CycleOutcome.connectError` at the base backoff) is followed by
a 20000 ms delay, not the doubled 4000 ms the spec describes, even though
`pollGmail` itself had doubled the (immediately overwritten) backoff value. -/
theorem pollLoop_fixed_delay :
    (∀ (b : Nat) (o : CycleOutcome), pollLoopIter b o = (BACKOFF_BASE, POLL_INTERVAL)) ∧
    pollLoopIter 2000 CycleOutcome.connectError = (2000, 20000) ∧
    pollGmailBackoff 2000 CycleOutcome.connectError = 4000 :=
  ⟨fun _ _ => rfl, rfl, rfl⟩

/-- C5 (code bug): a message whose parse throws gets a terminal ERROR decision
logged, yet its `(mailbox, uid)` marker is never inserted — the `continue` in
the parser-error branch skips the marker-insertion block that its own
`savedAny` flag was set up to trigger — and a second scan pass re-parses the
message (its rejected counter increments again instead of the marker-skip
path being taken). -/
theorem processEmails_parser_error_skips_marker :
    ((processEmails fixScanDb2 "INBOX" none [100] fixParserErrorEnv 500 500).1.payment_logs.any
        (fun e => e.email_uid = some "100" ∧ e.decision = "ERROR") = true) ∧
    markerExists (processEmails fixScanDb2 "INBOX" none [100] fixParserErrorEnv 500 500).1
      "INBOX" "100" = false ∧
    (processEmails
        (processEmails fixScanDb2 "INBOX" none [100] fixParserErrorEnv 500 500).1
        "INBOX" none [100] fixParserErrorEnv 500 500).2.rejected = 1 := by
  refine ⟨?_, ?_, ?_⟩ <;> decide

/-- C8 counterexample: a pass over uids 50 (already marked, skipped) and 60
(parser throws) visits both messages, yet the stored watermark moves to 51 —
not one past the highest visited uid (which would be 61) — and drops below its
previous value 100. -/
theorem watermark_visited_counterexample :
    fixScanDb.gmail_start_uid = some 100 ∧
    (processEmails fixScanDb "INBOX" none [50, 60] fixParserErrorEnv 500 500).2.found = 2 ∧
    (processEmails fixScanDb "INBOX" none [50, 60] fixParserErrorEnv 500 500).2.highestProcessedUid
      = 50 ∧
    (processEmails fixScanDb "INBOX" none [50, 60] fixParserErrorEnv 500 500).1.gmail_start_uid
      = some 51 := by
  refine ⟨rfl, ?_, ?_, ?_⟩ <;> decide

theorem markProcessed_start_uid (db : Db) (mailbox uid : String) :
    (markProcessed db mailbox uid).gmail_start_uid = db.gmail_start_uid := by
  simp only [markProcessed]; split <;> rfl

theorem foldl_logPayment_start_uid (es : List PaymentLog) (db : Db) :
    (es.foldl logPayment db).gmail_start_uid = db.gmail_start_uid := by
  induction es generalizing db with
  | nil => rfl
  | cons e es ih => rw [List.foldl_cons, ih, logPayment_start_uid]

theorem confirm_start_uid (a : ConfirmArgs) (db : Db) (now txNow : Int) :
    (confirmTopupFromEmail a db now txNow).2.gmail_start_uid = db.gmail_start_uid := by
  unfold confirmTopupFromEmail
  split
  · rfl
  · rcases hC : confirmCore a db.topups db.users now txNow with ⟨res, tp1, us1, logs⟩
    dsimp only
    rw [foldl_logPayment_start_uid]

theorem processMessage_start_uid (mailbox : String) (env : Nat → MsgOutcome)
    (now txNow : Int) (startUid : Nat) (st : ScanState) (uidNum : Nat) :
    (processMessage mailbox env now txNow startUid st uidNum).db.gmail_start_uid =
      st.db.gmail_start_uid := by
  simp only [processMessage]
  repeat' split
  all_goals
    simp only [markProcessed_start_uid, logPayment_start_uid, foldl_logPayment_start_uid,
      confirm_start_uid]

theorem scan_foldl_start_uid (mailbox : String) (env : Nat → MsgOutcome)
    (now txNow : Int) (startUid : Nat) (uids : List Nat) (st : ScanState) :
    ((uids.foldl (processMessage mailbox env now txNow startUid) st).db.gmail_start_uid) =
      st.db.gmail_start_uid := by
  induction uids generalizing st with
  | nil => rfl
  | cons u us ih => rw [List.foldl_cons, ih, processMessage_start_uid]

/-- C8 (amended): when the pass is armed, the stored watermark after the pass
equals one past the returned `highestProcessedUid` — the highest uid among
messages that were already marked or reached a saved decision, NOT the highest
merely visited — provided that value reached the pass's start uid; otherwise
the watermark is left exactly as the mailbox-open step left it.  (The value
written this way can be lower than the previously stored watermark.) -/
theorem processEmails_watermark (db : Db) (mailbox : String) (mbUidNext : Option Nat)
    (uids : List Nat) (env : Nat → MsgOutcome) (now txNow : Int) (s : Nat)
    (hArmed : minArmedUid (openMailboxStartUid db mbUidNext) = some s) :
    (((s : Int) ≤
        (processEmails db mailbox mbUidNext uids env now txNow).2.highestProcessedUid →
      (processEmails db mailbox mbUidNext uids env now txNow).1.gmail_start_uid =
        some ((processEmails db mailbox mbUidNext uids env now txNow).2.highestProcessedUid
          + 1).toNat) ∧
    ((processEmails db mailbox mbUidNext uids env now txNow).2.highestProcessedUid < (s : Int) →
      (processEmails db mailbox mbUidNext uids env now txNow).1.gmail_start_uid =
        (openMailboxStartUid db mbUidNext).gmail_start_uid)) := by
  simp only [processEmails]
  rw [hArmed]
  dsimp only
  by_cases hu : uids.isEmpty = true
  · rw [if_pos hu]
    dsimp only
    constructor
    · intro h
      exfalso
      omega
    · intro _
      rfl
  · rw [if_neg hu]
    dsimp only
    set F := List.foldl (processMessage mailbox env now txNow s)
      { db := openMailboxStartUid db mbUidNext, highestProcessedUid := (s : Int) - 1,
        processedCount := 0, parsedCount := 0, confirmedCount := 0, rejectedCount := 0 }
      uids with hF
    constructor
    · intro h
      rw [if_pos h]
      rfl
    · intro h
      rw [if_neg (not_le.2 h)]
      rw [hF]
      exact scan_foldl_start_uid _ _ _ _ _ _ _

/-- Witness for the amended C8 at the concrete scan fixture (the first branch
applies: `highestProcessedUid = 50 ≥ startUid = 50`, so the watermark becomes
51). -/
theorem processEmails_watermark_witness :
    (((50 : Nat) : Int) ≤
        (processEmails fixScanDb "INBOX" none [50, 60] fixParserErrorEnv 500 500).2.highestProcessedUid →
      (processEmails fixScanDb "INBOX" none [50, 60] fixParserErrorEnv 500 500).1.gmail_start_uid =
        some ((processEmails fixScanDb "INBOX" none [50, 60] fixParserErrorEnv 500 500).2.highestProcessedUid
          + 1).toNat) ∧
    ((processEmails fixScanDb "INBOX" none [50, 60] fixParserErrorEnv 500 500).2.highestProcessedUid
        < ((50 : Nat) : Int) →
      (processEmails fixScanDb "INBOX" none [50, 60] fixParserErrorEnv 500 500).1.gmail_start_uid =
        (openMailboxStartUid fixScanDb none).gmail_start_uid) :=
  processEmails_watermark fixScanDb "INBOX" none [50, 60] fixParserErrorEnv 500 500 50 (by decide)

/-! ## The credited amount comes only from the email amount string (C4) -/

theorem usersBalanceSum_creditUsers (us : List User) (oid : Nat) (c : Int) :
    usersBalanceSum (creditUsers us oid c) =
      usersBalanceSum us + c * (countUsersById us oid : Int) := by
  induction us with
  | nil => simp [usersBalanceSum, creditUsers, countUsersById]
  | cons u rest ih =>
    by_cases h : u.id = oid <;>
      simp [usersBalanceSum, creditUsers, countUsersById, List.filter_cons, h] <;>
      simp [usersBalanceSum, creditUsers, countUsersById] at ih <;>
      rw [ih] <;> ring

theorem confirmTransaction_ok_inv (tp : List Topup) (us : List User) (tid oid : Nat)
    (c txNow : Int) (tp1 : List Topup) (us1 : List User)
    (h : confirmTransaction tp us tid oid c txNow = .ok (tp1, us1)) :
    countUpdatableTopups tp tid txNow = 1 ∧ countUsersById us oid = 1 ∧
      tp1 = confirmUpdateTopups tp tid c txNow ∧ us1 = creditUsers us oid c := by
  simp only [confirmTransaction] at h
  repeat' split at h
  all_goals simp_all

theorem confirmCore_success_effects (a : ConfirmArgs) (tp : List Topup) (us : List User)
    (now txNow : Int) (res : ConfirmResult) (tp1 : List Topup) (us1 : List User)
    (logs : List PaymentLog)
    (hE : confirmCore a tp us now txNow = (res, tp1, us1, logs))
    (h : res.success = true) :
    ∃ c t, jsCoins a.amountString = some c ∧ 0 < c ∧ res.coins = some c ∧
      (findMatchingTopupByPhrase tp now a.codeCandidate).topup = some t ∧
      countUpdatableTopups tp t.id txNow = 1 ∧ countUsersById us t.userId = 1 ∧
      tp1 = confirmUpdateTopups tp t.id c txNow ∧ us1 = creditUsers us t.userId c := by
  simp only [confirmCore] at hE
  repeat' split at hE
  all_goals (injection hE with h1 h2; injection h2 with h2 h3; injection h3 with h3 h4)
  all_goals first
    | (exfalso; rw [← h1] at h; simp [ConfirmResult.fail] at h; done)
    | skip
  rename_i x1 n heqC hPos x2 topup heqM hs he hsk x3 topups1 users1 heqTx
  obtain ⟨hk1, hk2, htp, hus⟩ :=
    confirmTransaction_ok_inv tp us topup.id topup.userId n txNow topups1 users1 heqTx
  refine ⟨n, topup, heqC, by omega, ?_, heqM, hk1, hk2, ?_, ?_⟩
  · rw [← h1]
  · rw [← h2, htp]
  · rw [← h3, hus]

/-- C4: the credited coin amount is derived solely from the email's parsed
amount string, floored to an integer (`jsCoins` = `Math.floor ∘ parseFloat`),
never from the topup record: when the amount is missing, non-numeric, or its
floor is ≤ 0 the call fails with a REJECTED log entry and neither table
changes; when the call succeeds, the returned coins equal `jsCoins` of the
amount string — a function of that string alone — and the total user balance
grows by exactly that amount. -/
theorem confirm_coins_from_email
    (a : ConfirmArgs) (db : Db) (now txNow : Int)
    (hNoLog : ∀ l ∈ db.payment_logs, l.email_uid ≠ some a.email_uid) :
    ((∀ c, jsCoins a.amountString = some c → c ≤ 0) →
      (confirmTopupFromEmail a db now txNow).1.success = false ∧
      (confirmTopupFromEmail a db now txNow).2.topups = db.topups ∧
      (confirmTopupFromEmail a db now txNow).2.users = db.users ∧
      ∃ e, (confirmTopupFromEmail a db now txNow).2.payment_logs = db.payment_logs ++ [e] ∧
        e.decision = "REJECTED") ∧
    ((confirmTopupFromEmail a db now txNow).1.success = true →
      ∃ c, jsCoins a.amountString = some c ∧ 0 < c ∧
        (confirmTopupFromEmail a db now txNow).1.coins = some c ∧
        usersBalanceSum (confirmTopupFromEmail a db now txNow).2.users =
          usersBalanceSum db.users + c) := by
  have hGate := gateHit_false_of_noLog db a.email_uid hNoLog
  constructor
  · intro hInv
    have hfinish : ∀ hconf : confirmTopupFromEmail a db now txNow =
        (ConfirmResult.fail ("Invalid email amount: " ++ jsShowOptStr a.amountString ++
           " (must be > 0). Parser returned empty/invalid amount - likely no strong transaction match found."),
         logPayment { db with topups := db.topups, users := db.users }
           ({ PaymentLog.empty with
               email_uid := some a.email_uid, parser_amount := a.amountString,
               extracted_code := a.codeCandidate, decision := "REJECTED",
               reason := some ("Invalid email amount: " ++ jsShowOptStr a.amountString ++
                 " (must be > 0). Parser returned empty/invalid amount - likely no strong transaction match found." ++
                 " (source: " ++ a.code_source ++ ")"),
               raw_subject := some a.subject, short_body_preview := some a.bodyPreview })),
        (confirmTopupFromEmail a db now txNow).1.success = false ∧
        (confirmTopupFromEmail a db now txNow).2.topups = db.topups ∧
        (confirmTopupFromEmail a db now txNow).2.users = db.users ∧
        ∃ e, (confirmTopupFromEmail a db now txNow).2.payment_logs = db.payment_logs ++ [e] ∧
          e.decision = "REJECTED" := by
      intro hconf
      rw [hconf]
      refine ⟨rfl, ?_, ?_, ?_⟩
      · rw [logPayment_topups]
      · rw [logPayment_users]
      · rw [logPayment_append { db with topups := db.topups, users := db.users }
          _ a.email_uid rfl (by simp) (fun l hl => hNoLog l hl)]
        exact ⟨_, rfl, rfl⟩
    cases hj : jsCoins a.amountString with
    | none =>
      apply hfinish
      simp only [confirmTopupFromEmail, hGate, Bool.false_eq_true, if_false]
      simp only [confirmCore, hj]
      rfl
    | some c =>
      apply hfinish
      simp only [confirmTopupFromEmail, hGate, Bool.false_eq_true, if_false]
      simp only [confirmCore, hj]
      rw [if_pos (hInv c hj)]
      rfl
  · intro hs
    by_cases hg : gateHit db a.email_uid = true
    · rw [confirmTopupFromEmail_gate a db now txNow hg] at hs
      simp [ConfirmResult.fail] at hs
    · have hg2 : gateHit db a.email_uid = false := by
        revert hg; cases gateHit db a.email_uid <;> simp
      rcases hC : confirmCore a db.topups db.users now txNow with ⟨res, tp1, us1, logs⟩
      have h1 : confirmTopupFromEmail a db now txNow =
          (res, logs.foldl logPayment { db with topups := tp1, users := us1 }) := by
        simp [confirmTopupFromEmail, hg2, hC]
      rw [h1] at hs
      obtain ⟨c, t, hjc, hpos, hcoins, hm, hk1, hk2, htp, hus⟩ :=
        confirmCore_success_effects a db.topups db.users now txNow res tp1 us1 logs hC hs
      refine ⟨c, hjc, hpos, ?_, ?_⟩
      · rw [h1]
        exact hcoins
      · rw [h1]
        dsimp only
        rw [foldl_logPayment_users]
        dsimp only
        rw [hus, usersBalanceSum_creditUsers, hk2]
        simp

/-- Witness for C4: a non-numeric amount ("abc") is rejected with no table
change, and the "25.9" fixture credits exactly 25 coins (the fixture topup's
own `amount_coins` is 999, which is ignored). -/
theorem confirm_coins_from_email_witness :
    ((confirmTopupFromEmail fixArgsBad fixDb 500 500).1.success = false ∧
     (confirmTopupFromEmail fixArgsBad fixDb 500 500).2.topups = fixDb.topups ∧
     (confirmTopupFromEmail fixArgsBad fixDb 500 500).2.users = fixDb.users ∧
     ∃ e, (confirmTopupFromEmail fixArgsBad fixDb 500 500).2.payment_logs =
        fixDb.payment_logs ++ [e] ∧ e.decision = "REJECTED") ∧
    (∃ c, jsCoins fixArgs.amountString = some c ∧ 0 < c ∧
      (confirmTopupFromEmail fixArgs fixDb 500 500).1.coins = some c ∧
      usersBalanceSum (confirmTopupFromEmail fixArgs fixDb 500 500).2.users =
        usersBalanceSum fixDb.users + c) :=
  ⟨(confirm_coins_from_email fixArgsBad fixDb 500 500 (by decide)).1
      (fun c h => by
        rw [(by decide : jsCoins fixArgsBad.amountString = none)] at h
        exact Option.noConfusion h),
   (confirm_coins_from_email fixArgs fixDb 500 500 (by decide)).2 (by decide)⟩

/-! ## Multiple phrase matches are always rejected (C3) -/

theorem isPrefixOf_append (n l m : List Char) (h : n.isPrefixOf l = true) :
    n.isPrefixOf (l ++ m) = true := by
  induction n generalizing l with
  | nil => simp [List.isPrefixOf]
  | cons x xs ih =>
    cases l with
    | nil => simp [List.isPrefixOf] at h
    | cons c cs =>
      simp only [List.isPrefixOf, List.cons_append, Bool.and_eq_true] at h ⊢
      exact ⟨h.1, ih cs h.2⟩

theorem listContainsSub_of_prefix (l m n : List Char) (h : n.isPrefixOf l = true) :
    listContainsSub (l ++ m) n = true := by
  cases n with
  | nil =>
    cases hl : l ++ m with
    | nil => simp [listContainsSub]
    | cons c cs => simp [listContainsSub]
  | cons x xs =>
    cases l with
    | nil => simp [List.isPrefixOf] at h
    | cons c cs =>
      have hpre : (x :: xs).isPrefixOf ((c :: cs) ++ m) = true := isPrefixOf_append _ _ _ h
      rw [List.cons_append] at hpre ⊢
      simp [listContainsSub, hpre]

theorem strIncludes_of_data_prefix (lit rest needle : String)
    (h : needle.data.isPrefixOf lit.data = true) :
    strIncludes (lit ++ rest) needle = true := by
  unfold strIncludes
  have hd : (lit ++ rest).data = lit.data ++ rest.data := rfl
  rw [hd]
  exact listContainsSub_of_prefix _ _ _ h

theorem strIncludes_multiple (ps : List String) (src : String) :
    strIncludes (multipleMatchReason ps ++ src) "Multiple" = true := by
  unfold multipleMatchReason
  have h1 : ("Multiple active topup phrases match candidate: " ++ quoteJoin ps ++ " (" ++
      toString ps.length ++ " matches)" ++ src) =
      "Multiple active topup phrases match candidate: " ++
        (quoteJoin ps ++ " (" ++ toString ps.length ++ " matches)" ++ src) := by
    simp [String.append_assoc]
  rw [h1]
  exact strIncludes_of_data_prefix _ _ _ (by decide)

theorem findMatch_multi (topups : List Topup) (now : Int) (cand : String)
    (hcand : normalizePhrase cand ≠ "")
    (hMulti : 2 ≤ ((getActiveTopups topups now).filter
        (fun t => normalizePhrase cand = normalizePhrase t.code)).length) :
    findMatchingTopupByPhrase topups now (some cand) =
      ⟨none, multipleMatchReason (((getActiveTopups topups now).filter
        (fun t => normalizePhrase cand = normalizePhrase t.code)).map Topup.code), none⟩ := by
  have hc : cand ≠ "" := by
    intro h0
    apply hcand
    rw [h0]
    rfl
  have hact : ¬ (getActiveTopups topups now).isEmpty = true := by
    intro h0
    rw [List.isEmpty_iff] at h0
    rw [h0] at hMulti
    simp at hMulti
  simp only [findMatchingTopupByPhrase]
  rw [if_neg hc, if_neg hcand, if_neg hact]
  rcases hF : (getActiveTopups topups now).filter
      (fun t => normalizePhrase cand = normalizePhrase t.code) with _ | ⟨x, _ | ⟨y, rest⟩⟩
  · rw [hF] at hMulti; simp at hMulti
  · rw [hF] at hMulti; simp at hMulti
  · rw [hF]

/-- C3: when more than one active PENDING topup's normalized stored phrase
equals the normalized candidate (and the call reaches phrase resolution: gate
passed, positive amount), `confirmTopupFromEmail` fails without picking any
topup (`topupId = none`), leaves both tables unchanged, and writes one
REJECTED log entry whose reason is `multipleMatchReason` over the code of
*every* colliding request. -/
theorem confirm_multi_match
    (a : ConfirmArgs) (db : Db) (now txNow : Int) (cand : String) (c : Int)
    (hCand : a.codeCandidate = some cand)
    (hNorm : normalizePhrase cand ≠ "")
    (hNoLog : ∀ l ∈ db.payment_logs, l.email_uid ≠ some a.email_uid)
    (hCoins : jsCoins a.amountString = some c) (hPos : 0 < c)
    (hMulti : 2 ≤ ((getActiveTopups db.topups now).filter
        (fun t => normalizePhrase cand = normalizePhrase t.code)).length) :
    (confirmTopupFromEmail a db now txNow).1.success = false ∧
    (confirmTopupFromEmail a db now txNow).1.topupId = none ∧
    (confirmTopupFromEmail a db now txNow).2.topups = db.topups ∧
    (confirmTopupFromEmail a db now txNow).2.users = db.users ∧
    ∃ e, (confirmTopupFromEmail a db now txNow).2.payment_logs = db.payment_logs ++ [e] ∧
      e.decision = "REJECTED" ∧
      e.reason = some (multipleMatchReason (((getActiveTopups db.topups now).filter
          (fun t => normalizePhrase cand = normalizePhrase t.code)).map Topup.code) ++
        " (source: " ++ a.code_source ++ ")") := by
  have hGate := gateHit_false_of_noLog db a.email_uid hNoLog
  have hM := findMatch_multi db.topups now cand hNorm hMulti
  have hInc := strIncludes_multiple (((getActiveTopups db.topups now).filter
      (fun t => normalizePhrase cand = normalizePhrase t.code)).map Topup.code) ""
  have hconf : confirmTopupFromEmail a db now txNow =
      (ConfirmResult.fail (multipleMatchReason (((getActiveTopups db.topups now).filter
          (fun t => normalizePhrase cand = normalizePhrase t.code)).map Topup.code)),
       logPayment { db with topups := db.topups, users := db.users }
         ({ PaymentLog.empty with
             email_uid := some a.email_uid, parser_amount := a.amountString,
             extracted_code := none,
             decision := "REJECTED",
             reason := some (multipleMatchReason (((getActiveTopups db.topups now).filter
                 (fun t => normalizePhrase cand = normalizePhrase t.code)).map Topup.code) ++
               " (source: " ++ a.code_source ++ ")"),
             raw_subject := some a.subject, short_body_preview := some a.bodyPreview })) := by
    simp only [confirmTopupFromEmail, hGate, Bool.false_eq_true, if_false]
    simp only [confirmCore, hCoins, hCand, hM]
    rw [if_neg (not_le.2 hPos)]
    have hIncTrue : strIncludes (multipleMatchReason (((getActiveTopups db.topups now).filter
        (fun t => normalizePhrase cand = normalizePhrase t.code)).map Topup.code)) "Multiple" = true := by
      have := strIncludes_multiple (((getActiveTopups db.topups now).filter
          (fun t => normalizePhrase cand = normalizePhrase t.code)).map Topup.code) ""
      simpa using this
    simp only [hIncTrue, if_true]
    rfl
  rw [hconf]
  refine ⟨rfl, rfl, ?_, ?_, ?_⟩
  · rw [logPayment_topups]
  · rw [logPayment_users]
  · rw [logPayment_append { db with topups := db.topups, users := db.users }
      _ a.email_uid rfl (by simp) (fun l hl => hNoLog l hl)]
    exact ⟨_, rfl, rfl, rfl⟩

/-- Witness for C3: two pending topups whose phrases normalize identically
("Vine Oak" / "VINE  oak") cause a REJECTED multi-match with no state change. -/
theorem confirm_multi_match_witness :
    (confirmTopupFromEmail fixArgs fixDbClash 500 500).1.success = false ∧
    (confirmTopupFromEmail fixArgs fixDbClash 500 500).1.topupId = none ∧
    (confirmTopupFromEmail fixArgs fixDbClash 500 500).2.topups = fixDbClash.topups ∧
    (confirmTopupFromEmail fixArgs fixDbClash 500 500).2.users = fixDbClash.users ∧
    ∃ e, (confirmTopupFromEmail fixArgs fixDbClash 500 500).2.payment_logs =
        fixDbClash.payment_logs ++ [e] ∧
      e.decision = "REJECTED" ∧
      e.reason = some (multipleMatchReason (((getActiveTopups fixDbClash.topups 500).filter
          (fun t => normalizePhrase "vine  OAK" = normalizePhrase t.code)).map Topup.code) ++
        " (source: " ++ fixArgs.code_source ++ ")") :=
  confirm_multi_match fixArgs fixDbClash 500 500 "vine  OAK" 25 rfl (by decide) (by decide)
    (by decide) (by decide) (by decide)

/-! ## Safe-zone extraction priority (C6) -/

/-- C6 counterexample: the extractor supplied the non-empty subject "aaa"
(`fixSubjectPd.subject`), yet with subject header "bbb" the function returns
"bbb" — the claim's candidate 4 ("facts.subject, falling back to the header
only when the extractor did not supply a subject") is false: the code
prefers the header. -/
theorem extract_subject_priority_counterexample :
    fixSubjectPd.subject = "aaa" ∧ normalizePhrase fixSubjectPd.subject ≠ "" ∧
    extractPassphraseFromSafeZones fixSubjectPd "" "bbb" =
      ⟨some "bbb", some "subject"⟩ := by
  refine ⟨rfl, ?_, ?_⟩ <;> decide

/-- C6 (amended): the extraction priority is TOPUP line, then `note_part`,
then `receipt_memo`, then — contrary to the original claim — the email's own
subject header with `facts.subject` only as fallback when the header is empty
(`jsOr emailSubject pd.subject`); each candidate is normalized before the
emptiness check and `(none, none)` is returned when all are empty.  Stated as
equality with the spec-side scan `extractSafeZonesSpec`. -/
theorem extract_matches_spec (pd : ParserData) (emailBody emailSubject : String) :
    extractPassphraseFromSafeZones pd emailBody emailSubject =
      extractSafeZonesSpec pd emailBody emailSubject := by
  simp only [extractPassphraseFromSafeZones, extractSafeZonesSpec]
  cases hT : extractTopupLine emailBody with
  | none =>
    by_cases h1 : normalizePhrase pd.note_part = "" <;>
    by_cases h2 : normalizePhrase pd.receipt_memo = "" <;>
    by_cases h3 : normalizePhrase (jsOr emailSubject pd.subject) = "" <;>
      simp [h1, h2, h3]
  | some t =>
    by_cases ht : t = ""
    · subst ht
      by_cases h1 : normalizePhrase pd.note_part = "" <;>
      by_cases h2 : normalizePhrase pd.receipt_memo = "" <;>
      by_cases h3 : normalizePhrase (jsOr emailSubject pd.subject) = "" <;>
        simp [h1, h2, h3]
    · simp [ht]

/-! ## validatePayment logging discipline (C7) -/

/-- C7 counterexample: on parser data passing every rule, `validatePayment`
returns `valid = true` and writes zero log entries — refuting "every call,
pass or fail, emits exactly one PaymentLogEntry". -/
theorem validate_valid_path_no_log :
    (validatePayment fixValidPd "" "" "u9").1.valid = true ∧
    (validatePayment fixValidPd "" "" "u9").2 = [] := by
  refine ⟨?_, ?_⟩ <;> decide

theorem data_head_append (l1 x : String) (c : Char) (hl : l1.data.head? = some c) :
    (l1 ++ x).data.head? = some c := by
  show (l1.data ++ x.data).head? = some c
  cases hld : l1.data with
  | nil => rw [hld] at hl; exact absurd hl (by simp)
  | cons a as =>
    rw [hld] at hl
    simpa using hl

theorem ne_of_data_head (s t : String) (c d : Char) (hs : s.data.head? = some c)
    (ht : t.data.head? = some d) (hcd : c ≠ d) : s ≠ t := by
  intro he
  rw [he, ht] at hs
  exact hcd (Option.some.inj hs).symm

/-- C7 (amended): a `validatePayment` call that returns `valid = false` emits
exactly one PaymentLogEntry — decision REJECTED with the failing rule's reason
for rules 1–4 (witnessed here by the reason characterizations for rules 1 and
2), and decision IGNORED exactly for the final no-passphrase reason — while a
call that returns `valid = true` emits no entry at all (logging of the
accepted case is deferred to the confirmation stage). -/
theorem validatePayment_logging (pd : ParserData) (body subj uid : String) :
    ((validatePayment pd body subj uid).1.valid = true →
      (validatePayment pd body subj uid).2 = []) ∧
    ((validatePayment pd body subj uid).1.valid = false →
      ∃ e, (validatePayment pd body subj uid).2 = [e] ∧
        e.email_uid = some uid ∧
        e.reason = some (validatePayment pd body subj uid).1.reason ∧
        ((e.decision = "IGNORED" ∧
            (validatePayment pd body subj uid).1.reason = noPassphraseReason) ∨
         (e.decision = "REJECTED" ∧
            (validatePayment pd body subj uid).1.reason ≠ noPassphraseReason))) ∧
    (pd.pay_type ≠ some "sent" →
      (validatePayment pd body subj uid).1.reason =
        "Invalid pay_type: " ++ jsShowOptStr pd.pay_type ++ " (only \"sent\" payments accepted)") ∧
    (pd.pay_type = some "sent" →
      (pd.amount = none ∨ pd.amount = some "" ∨ jsTrim (jsShowOptStr pd.amount) = "") →
      (validatePayment pd body subj uid).1.reason = "Amount missing or empty") := by
  have hne1 : ∀ x : String,
      ("Invalid pay_type: " ++ x ++ " (only \"sent\" payments accepted)") ≠ noPassphraseReason :=
    fun x => ne_of_data_head _ _ 'I' 'N'
      (data_head_append _ _ _ (data_head_append _ _ _ rfl)) rfl (by decide)
  have hne2 : ("Amount missing or empty" : String) ≠ noPassphraseReason := by decide
  have hne3 : ∀ x : String, ("Invalid amount: " ++ x ++ " (must be > 0)") ≠ noPassphraseReason :=
    fun x => ne_of_data_head _ _ 'I' 'N'
      (data_head_append _ _ _ (data_head_append _ _ _ rfl)) rfl (by decide)
  have hne4 : ∀ x : String, ("Invalid request_status: " ++ x) ≠ noPassphraseReason :=
    fun x => ne_of_data_head _ _ 'I' 'N' (data_head_append _ _ _ rfl) rfl (by decide)
  have hne5 : ("Payment marked as expired by parser" : String) ≠ noPassphraseReason := by decide
  by_cases h1 : pd.pay_type ≠ some "sent"
  · simp only [validatePayment]
    rw [if_pos h1]
    refine ⟨fun hv => absurd hv (by simp [ValidationResult.invalid]),
      fun _ => ⟨_, rfl, rfl, rfl, Or.inr ⟨rfl, hne1 _⟩⟩,
      fun _ => rfl,
      fun hx _ => absurd hx h1⟩
  · have h1p : pd.pay_type = some "sent" := not_not.1 (by simpa using h1)
    by_cases h2 : pd.amount = none ∨ pd.amount = some "" ∨ jsTrim (jsShowOptStr pd.amount) = ""
    · simp only [validatePayment]
      rw [if_neg h1, if_pos h2]
      refine ⟨fun hv => absurd hv (by simp [ValidationResult.invalid]),
        fun _ => ⟨_, rfl, rfl, rfl, Or.inr ⟨rfl, hne2⟩⟩,
        fun hx => absurd h1p hx,
        fun _ _ => rfl⟩
    · cases hp : jsParseFloat (jsShowOptStr pd.amount) with
      | none =>
        simp only [validatePayment]
        rw [if_neg h1, if_neg h2, hp]
        refine ⟨fun hv => absurd hv (by simp [ValidationResult.invalid]),
          fun _ => ⟨_, rfl, rfl, rfl, Or.inr ⟨rfl, hne3 _⟩⟩,
          fun hx => absurd h1p hx,
          fun _ hx => absurd hx h2⟩
      | some amountNum =>
        by_cases h3 : amountNum ≤ 0
        · simp only [validatePayment]
          rw [if_neg h1, if_neg h2, hp]
          dsimp only
          rw [if_pos h3]
          refine ⟨fun hv => absurd hv (by simp [ValidationResult.invalid]),
            fun _ => ⟨_, rfl, rfl, rfl, Or.inr ⟨rfl, hne3 _⟩⟩,
            fun hx => absurd h1p hx,
            fun _ hx => absurd hx h2⟩
        · by_cases h4 : pd.request_status ≠ "" ∧ pd.request_status ≠ "active"
          · simp only [validatePayment]
            rw [if_neg h1, if_neg h2, hp]
            dsimp only
            rw [if_neg h3, if_pos h4]
            refine ⟨fun hv => absurd hv (by simp [ValidationResult.invalid]),
              fun _ => ⟨_, rfl, rfl, rfl, Or.inr ⟨rfl, hne4 _⟩⟩,
              fun hx => absurd h1p hx,
              fun _ hx => absurd hx h2⟩
          · by_cases h5 : pd.is_expired = some true
            · simp only [validatePayment]
              rw [if_neg h1, if_neg h2, hp]
              dsimp only
              rw [if_neg h3, if_neg h4, if_pos h5]
              refine ⟨fun hv => absurd hv (by simp [ValidationResult.invalid]),
                fun _ => ⟨_, rfl, rfl, rfl, Or.inr ⟨rfl, hne5⟩⟩,
                fun hx => absurd h1p hx,
                fun _ hx => absurd hx h2⟩
            · cases hc : (extractPassphraseFromSafeZones pd body subj).code with
              | none =>
                simp only [validatePayment]
                rw [if_neg h1, if_neg h2, hp]
                dsimp only
                rw [if_neg h3, if_neg h4, if_neg h5, hc]
                refine ⟨fun hv => absurd hv (by simp [ValidationResult.invalid]),
                  fun _ => ⟨_, rfl, rfl, rfl, Or.inl ⟨rfl, rfl⟩⟩,
                  fun hx => absurd h1p hx,
                  fun _ hx => absurd hx h2⟩
              | some code =>
                simp only [validatePayment]
                rw [if_neg h1, if_neg h2, hp]
                dsimp only
                rw [if_neg h3, if_neg h4, if_neg h5, hc]
                refine ⟨fun _ => rfl,
                  fun hv => absurd hv (by simp),
                  fun hx => absurd h1p hx,
                  fun _ hx => absurd hx h2⟩

/-- Witness for the amended C7: a rule-1 rejection (pay_type "request") emits
exactly one REJECTED entry carrying the returned reason. -/
theorem validatePayment_logging_witness :
    ∃ e, (validatePayment fixRejectPd "" "" "w7").2 = [e] ∧
      e.email_uid = some "w7" ∧
      e.reason = some (validatePayment fixRejectPd "" "" "w7").1.reason ∧
      ((e.decision = "IGNORED" ∧
          (validatePayment fixRejectPd "" "" "w7").1.reason = noPassphraseReason) ∨
       (e.decision = "REJECTED" ∧
          (validatePayment fixRejectPd "" "" "w7").1.reason ≠ noPassphraseReason)) :=
  (validatePayment_logging fixRejectPd "" "" "w7").2.1 (by decide)

/-! ## The status-rejection branch is unreachable (C10) -/

theorem mem_logPayment (db : Db) (x e : PaymentLog)
    (he : e ∈ (logPayment db x).payment_logs) :
    e ∈ db.payment_logs ∨
      e = { x with short_body_preview := x.short_body_preview.map (·.take 200) } := by
  simp only [logPayment] at he
  repeat' split at he
  all_goals first
    | exact Or.inl he
    | (rw [List.mem_append] at he
       rcases he with he | he
       · exact Or.inl he
       · exact Or.inr (List.mem_singleton.1 he))

theorem mem_foldl_logPayment (es : List PaymentLog) (db : Db) (e : PaymentLog)
    (he : e ∈ (es.foldl logPayment db).payment_logs) :
    e ∈ db.payment_logs ∨
      ∃ x ∈ es, e = { x with short_body_preview := x.short_body_preview.map (·.take 200) } := by
  induction es generalizing db with
  | nil => exact Or.inl he
  | cons x xs ih =>
    rw [List.foldl_cons] at he
    rcases ih (logPayment db x) he with h1 | ⟨y, hy, hey⟩
    · rcases mem_logPayment db x e h1 with h2 | h2
      · exact Or.inl h2
      · exact Or.inr ⟨x, List.mem_cons_self _ _, h2⟩
    · exact Or.inr ⟨y, List.mem_cons_of_mem _ hy, hey⟩

theorem findMatch_reason_head (topups : List Topup) (now : Int) (cand : Option String) :
    ∃ c, (findMatchingTopupByPhrase topups now cand).reason.data.head? = some c ∧ c ≠ 'T' := by
  simp only [findMatchingTopupByPhrase]
  repeat' split
  all_goals first
    | exact ⟨'N', rfl, by decide⟩
    | exact ⟨'C', rfl, by decide⟩
    | exact ⟨'E', rfl, by decide⟩
    | exact ⟨'M', rfl, by decide⟩

theorem confirmCore_no_status_reason (a : ConfirmArgs) (tp : List Topup) (us : List User)
    (now txNow : Int) (res : ConfirmResult) (tp1 : List Topup) (us1 : List User)
    (logs : List PaymentLog)
    (hE : confirmCore a tp us now txNow = (res, tp1, us1, logs)) :
    ∀ x ∈ logs, ∀ st src : String,
      x.reason ≠ some ("TopUp status is " ++ st ++ ", expected PENDING (source: " ++
        src ++ ")") := by
  simp only [confirmCore] at hE
  repeat' split at hE
  all_goals (injection hE with h1 h2; injection h2 with h2 h3; injection h3 with h3 h4)
  all_goals subst h4
  all_goals first
    | (intro x hx st src hcon
       simp only [List.mem_singleton] at hx
       subst hx
       have hinj := Option.some.inj hcon
       refine absurd hinj (ne_of_data_head _ _ _ 'T' rfl rfl ?_)
       decide)
    | (intro x hx st src hcon
       simp only [List.mem_singleton] at hx
       subst hx
       have hinj := Option.some.inj hcon
       obtain ⟨c0, hc0, hc0T⟩ := findMatch_reason_head tp now a.codeCandidate
       exact absurd hinj (ne_of_data_head _ _ _ 'T'
         (data_head_append _ _ _ (data_head_append _ _ _ (data_head_append _ _ _ hc0)))
         rfl hc0T))
    | (exact absurd ((findMatch_active _ _ _ _ (by assumption)).2.1) (by assumption))

/-- C10: the "TopUp status is X, expected PENDING" rejection in
`confirmTopupFromEmail` is unreachable.  First conjunct: every topup the
matcher returns has status PENDING (it comes from `getActiveTopups`, whose
WHERE clause selects only PENDING rows).  Second conjunct: consequently no
`payment_logs` row ever written by `confirmTopupFromEmail` carries the
status-rejection reason. -/
theorem status_reject_unreachable :
    (∀ (topups : List Topup) (now : Int) (cand : Option String) (t : Topup),
        (findMatchingTopupByPhrase topups now cand).topup = some t →
        t.status = "PENDING") ∧
    (∀ (a : ConfirmArgs) (db : Db) (now txNow : Int) (e : PaymentLog),
        e ∈ (confirmTopupFromEmail a db now txNow).2.payment_logs →
        e ∉ db.payment_logs →
        ∀ st src : String,
          e.reason ≠ some ("TopUp status is " ++ st ++ ", expected PENDING (source: " ++
            src ++ ")")) := by
  constructor
  · exact fun topups now cand t h => (findMatch_active topups now cand t h).2.1
  · intro a db now txNow e he hnew st src
    by_cases hg : gateHit db a.email_uid = true
    · rw [confirmTopupFromEmail_gate a db now txNow hg] at he
      exact absurd he hnew
    · have hg2 : gateHit db a.email_uid = false := by
        revert hg; cases gateHit db a.email_uid <;> simp
      rcases hC : confirmCore a db.topups db.users now txNow with ⟨res, tp1, us1, logs⟩
      have h1 : confirmTopupFromEmail a db now txNow =
          (res, logs.foldl logPayment { db with topups := tp1, users := us1 }) := by
        simp [confirmTopupFromEmail, hg2, hC]
      rw [h1] at he
      rcases mem_foldl_logPayment logs _ e he with h2 | ⟨x, hx, hex⟩
      · exact absurd h2 hnew
      · have hxr := confirmCore_no_status_reason a db.topups db.users now txNow
          res tp1 us1 logs hC x hx st src
        rw [hex]
        exact hxr

set_option maxRecDepth 4000 in
/-- Witness for C10: the matched fixture topup is PENDING, and the concrete
ACCEPTED entry written by the fixture confirmation does not carry the
status-rejection reason for any status/source strings. -/
theorem status_reject_unreachable_witness :
    fixTopup.status = "PENDING" ∧
    (∀ st src : String,
      fixAcceptedEntry.reason ≠
        some ("TopUp status is " ++ st ++ ", expected PENDING (source: " ++ src ++ ")")) :=
  ⟨status_reject_unreachable.1 fixDb.topups 500 (some "vine  OAK") fixTopup (by decide),
   fun st src =>
     status_reject_unreachable.2 fixArgs fixDb 500 500 fixAcceptedEntry
       (by decide) (by decide) st src⟩

end Northapp
